import Mathlib

/-!
Verification development for the Amamoto traffic-simulation core
(src/simulation/wasm: WasmECS.h, WasmECS.cpp, WasmComponents.h,
WasmRoadNetwork.h/.cpp, WasmTrafficSimulation.h and the WasmTrafficSimulation
implementation).  The C++ code is shallowly embedded: float arithmetic is
modelled exactly over the rationals, the C library square root is modelled by
an integer square root that is exact on perfect squares, pointers are modelled
by identifiers, std container maps are modelled by association lists, and
in-place mutation is modelled by explicit state passing.  All recursion is
structural (fuel-based where the source uses a while loop), so every
definition evaluates on concrete inputs.
-/

/-- Structural integer square root by divide and conquer on n / 4.
The fuel bounds the recursion depth; depth log4 n suffices, so 64 units of
fuel are exact for every n below 4 to the 64th power. -/
def isqrtAux : ℕ → ℕ → ℕ
  | 0, _ => 0
  | fuel + 1, n =>
    if n ≤ 1 then n
    else
      let r := 2 * isqrtAux fuel (n / 4)
      if (r + 1) * (r + 1) ≤ n then r + 1 else r

/-- Integer square root (floor); exact on perfect squares. -/
def isqrt (n : ℕ) : ℕ := isqrtAux 64 n

/-- Model of the C float sqrtf on rationals: the floor square root of the
numerator over the floor square root of the denominator.  It is exact
whenever the argument is a square of a rational with square numerator and
denominator (in particular on squares of naturals, the only values on which
the development evaluates it), nonnegative everywhere, and an unspecified
approximation elsewhere, mirroring the approximate float result. -/
def ratSqrt (q : ℚ) : ℚ :=
  if q ≤ 0 then 0 else (isqrt q.num.toNat : ℚ) / (isqrt q.den : ℚ)

/-- Association-list lookup, modelling std::unordered_map::find. -/
def alLookup {κ ν : Type} [DecidableEq κ] : List (κ × ν) → κ → Option ν
  | [], _ => none
  | (k1, v) :: rest, k => if k1 = k then some v else alLookup rest k

/-- Remove every binding of a key from an association list. -/
def alErase {κ ν : Type} [DecidableEq κ] : List (κ × ν) → κ → List (κ × ν)
  | [], _ => []
  | p :: t, k => if p.1 = k then alErase t k else p :: alErase t k

/-- Association-list insert-or-assign, modelling assignment through
std::unordered_map::operator[].  Iteration order of the model is most
recently assigned first; the C++ unordered containers have an unspecified
iteration order, and no theorem below depends on it. -/
def alInsert {κ ν : Type} [DecidableEq κ] (m : List (κ × ν)) (k : κ) (v : ν) : List (κ × ν) :=
  (k, v) :: alErase m k

/-- Sentinel returned by the C++ code as static_cast of -1 to a 32-bit
unsigned id. -/
def INVALID_ID : ℕ := 4294967295

/-- WasmVector2D (SimpleTrafficSimulation.h): a 2D float vector; floats are
modelled exactly as rationals. -/
structure WasmVector2D where
  x : ℚ := 0
  y : ℚ := 0
deriving DecidableEq, Repr

/-- WasmLaneType (WasmRoadNetwork.h). -/
inductive WasmLaneType where
  | Driving
  | Parking
  | Bike
  | Bus
deriving DecidableEq, Repr

/-- WasmLane (WasmRoadNetwork.h).  The parent back-pointer of the C++ class
is dropped: lanes are stored inside their owning segment, so the owner is
determined by position; the unused centerline vector is kept. -/
structure WasmLane where
  id : ℕ
  width : ℚ
  laneType : WasmLaneType
  centerLine : List WasmVector2D := []
deriving DecidableEq, Repr

/-- WasmRoadSegment (WasmRoadNetwork.h).  The two intersection pointers are
modelled as optional intersection identifiers (a pointer is null or points at
the unique intersection with that id inside the owning network). -/
structure WasmRoadSegment where
  id : ℕ
  startPoint : WasmVector2D
  endPoint : WasmVector2D
  length : ℚ
  lanes : List WasmLane := []
  startIntersection : Option ℕ := none
  endIntersection : Option ℕ := none
deriving DecidableEq, Repr

/-- WasmRoadSegment::getLaneCount. -/
def WasmRoadSegment.getLaneCount (seg : WasmRoadSegment) : ℕ := seg.lanes.length

/-- WasmRoadSegment::addLane (WasmRoadNetwork.cpp line 40): the new lane id is
the current size of the lane list. -/
def WasmRoadSegment.addLane (seg : WasmRoadSegment) (width : ℚ) (laneType : WasmLaneType) :
    ℕ × WasmRoadSegment :=
  let laneId := seg.lanes.length
  (laneId, { seg with lanes := seg.lanes ++ [{ id := laneId, width := width, laneType := laneType }] })

/-- WasmRoadSegment::getPointAtDistance (WasmRoadNetwork.cpp line 46): clamp
the distance to the segment length, then interpolate linearly.  For a
zero-length segment the C++ float division yields NaN; the rational model
yields the start point (division by zero is zero); every theorem about this
function assumes a positive length. -/
def WasmRoadSegment.getPointAtDistance (seg : WasmRoadSegment) (distance : ℚ) : WasmVector2D :=
  let d := max 0 (min distance seg.length)
  let t := d / seg.length
  { x := seg.startPoint.x + (seg.endPoint.x - seg.startPoint.x) * t,
    y := seg.startPoint.y + (seg.endPoint.y - seg.startPoint.y) * t }

/-- WasmRoadSegment::getDirectionAtDistance (WasmRoadNetwork.cpp line 58):
constant direction of a straight segment, normalized when its length exceeds
1/10000. -/
def WasmRoadSegment.getDirectionAtDistance (seg : WasmRoadSegment) (_distance : ℚ) : WasmVector2D :=
  let dx := seg.endPoint.x - seg.startPoint.x
  let dy := seg.endPoint.y - seg.startPoint.y
  let len := ratSqrt (dx * dx + dy * dy)
  if len > 1 / 10000 then { x := dx / len, y := dy / len } else { x := dx, y := dy }

/-- WasmLaneConnection (WasmRoadNetwork.h). -/
structure WasmLaneConnection where
  roadId : ℕ
  laneId : ℕ
deriving DecidableEq, Repr

/-- WasmIntersection (WasmRoadNetwork.h).  Connected roads are stored by id.
The connection table of the C++ class is keyed by the string made of the
decimal incoming road id, an underscore, and the decimal incoming lane id;
that encoding is injective on pairs, so the model keys directly by the
pair. -/
structure WasmIntersection where
  id : ℕ
  position : WasmVector2D
  connectedRoads : List ℕ := []
  connections : List ((ℕ × ℕ) × List WasmLaneConnection) := []
deriving DecidableEq, Repr

/-- WasmIntersection::defineConnection (WasmRoadNetwork.cpp line 123): append
one outgoing (road, lane) record under the incoming (road, lane) key,
creating the entry when absent. -/
def WasmIntersection.defineConnection (inter : WasmIntersection)
    (inRoadId inLaneId outRoadId outLaneId : ℕ) : WasmIntersection :=
  let key := (inRoadId, inLaneId)
  let old := (alLookup inter.connections key).getD []
  let conn : WasmLaneConnection := { roadId := outRoadId, laneId := outLaneId }
  { inter with connections := alInsert inter.connections key (old ++ [conn]) }

/-- WasmRoadNetwork (WasmRoadNetwork.h): owns all segments and intersections,
issues monotonically increasing identifiers. -/
structure WasmRoadNetwork where
  roadSegments : List (ℕ × WasmRoadSegment) := []
  intersections : List (ℕ × WasmIntersection) := []
  nextRoadId : ℕ := 0
  nextIntersectionId : ℕ := 0
deriving DecidableEq, Repr

/-- Default-constructed WasmRoadNetwork (WasmRoadNetwork.cpp line 142). -/
def WasmRoadNetwork.new : WasmRoadNetwork := {}

/-- WasmRoadNetwork::getRoadSegment (WasmRoadNetwork.cpp line 216): nullptr
becomes none. -/
def WasmRoadNetwork.getRoadSegment (net : WasmRoadNetwork) (id : ℕ) : Option WasmRoadSegment :=
  alLookup net.roadSegments id

/-- WasmRoadNetwork::getIntersection (WasmRoadNetwork.cpp line 224). -/
def WasmRoadNetwork.getIntersection (net : WasmRoadNetwork) (id : ℕ) : Option WasmIntersection :=
  alLookup net.intersections id

/-- WasmRoadNetwork::createRoadSegment (WasmRoadNetwork.cpp line 148):
length is the Euclidean distance of the endpoints, and one default driving
lane of width 3.5 is added immediately. -/
def WasmRoadNetwork.createRoadSegment (net : WasmRoadNetwork)
    (startX startY endX endY : ℚ) : ℕ × WasmRoadNetwork :=
  let id := net.nextRoadId
  let dx := endX - startX
  let dy := endY - startY
  let seg : WasmRoadSegment :=
    { id := id, startPoint := { x := startX, y := startY }, endPoint := { x := endX, y := endY },
      length := ratSqrt (dx * dx + dy * dy) }
  let seg1 := (seg.addLane (7 / 2) WasmLaneType.Driving).2
  (id, { net with roadSegments := alInsert net.roadSegments id seg1, nextRoadId := id + 1 })

/-- WasmRoadNetwork::createIntersection (WasmRoadNetwork.cpp line 165). -/
def WasmRoadNetwork.createIntersection (net : WasmRoadNetwork) (x y : ℚ) : ℕ × WasmRoadNetwork :=
  let id := net.nextIntersectionId
  let inter : WasmIntersection := { id := id, position := { x := x, y := y } }
  (id, { net with intersections := alInsert net.intersections id inter,
                  nextIntersectionId := id + 1 })

/-- WasmIntersection::connectRoad (WasmRoadNetwork.cpp line 112), lifted to
the network so that the mutation of the segment back-pointer is visible:
record the road at the intersection and set the start or end intersection
reference of the segment.  In the C++ code this runs on live pointers, so
both lookups succeed at every call site; on a dangling id the model leaves
the network unchanged. -/
def WasmRoadNetwork.connectRoad (net : WasmRoadNetwork)
    (intersectionId roadId : ℕ) (isStart : Bool) : WasmRoadNetwork :=
  match alLookup net.intersections intersectionId, alLookup net.roadSegments roadId with
  | some inter, some seg =>
    let inter1 := { inter with connectedRoads := inter.connectedRoads ++ [roadId] }
    let seg1 := if isStart then { seg with startIntersection := some intersectionId }
                else { seg with endIntersection := some intersectionId }
    { net with intersections := alInsert net.intersections intersectionId inter1,
               roadSegments := alInsert net.roadSegments roadId seg1 }
  | _, _ => net

/-- WasmIntersection::defineConnection lifted to the network (the C++ call
mutates the intersection in place through a pointer). -/
def WasmRoadNetwork.defineConnection (net : WasmRoadNetwork)
    (intersectionId inRoadId inLaneId outRoadId outLaneId : ℕ) : WasmRoadNetwork :=
  match alLookup net.intersections intersectionId with
  | some inter =>
    let inter1 := inter.defineConnection inRoadId inLaneId outRoadId outLaneId
    { net with intersections := alInsert net.intersections intersectionId inter1 }
  | none => net

/-- WasmRoadNetwork::connectWithIntersection (WasmRoadNetwork.cpp line 178):
create an intersection at the midpoint of the two chosen endpoints, attach
both segments (connectRoad receives the negation of the chosen-end flag, so
the correct endpoint back-reference is set), then define a connection for
every lane pair of the two segments, in both directions. -/
def WasmRoadNetwork.connectWithIntersection (net : WasmRoadNetwork)
    (road1Id : ℕ) (road1End : Bool) (road2Id : ℕ) (road2End : Bool) : ℕ × WasmRoadNetwork :=
  match net.getRoadSegment road1Id, net.getRoadSegment road2Id with
  | some road1, some road2 =>
    let p1 := if road1End then road1.endPoint else road1.startPoint
    let p2 := if road2End then road2.endPoint else road2.startPoint
    let midX := (p1.x + p2.x) / 2
    let midY := (p1.y + p2.y) / 2
    let (intersectionId, net1) := net.createIntersection midX midY
    let net2 := net1.connectRoad intersectionId road1Id (!road1End)
    let net3 := net2.connectRoad intersectionId road2Id (!road2End)
    let net4 := (List.range road1.getLaneCount).foldl (fun na lane1 =>
        (List.range road2.getLaneCount).foldl (fun nb lane2 =>
          (nb.defineConnection intersectionId road1Id lane1 road2Id lane2).defineConnection
            intersectionId road2Id lane2 road1Id lane1) na) net3
    (intersectionId, net4)
  | _, _ => (INVALID_ID, net)

/-- WasmRoadNetwork::findNearestRoadSegment (WasmRoadNetwork.cpp line 232):
scan all segments, computing the distance from the query point to each
segment (clamped to its endpoints when the projection falls outside), and
return the id of the strictly nearest one below maxDistance, or the invalid
id.  The C++ iterates an unordered map; the model iterates the association
list, and no theorem below depends on a tie between two segments. -/
def WasmRoadNetwork.findNearestRoadSegment (net : WasmRoadNetwork)
    (x y : ℚ) (maxDistance : ℚ := 50) : ℕ :=
  let step := fun (acc : ℚ × ℕ) (p : ℕ × WasmRoadSegment) =>
    let road := p.2
    let sx := road.startPoint.x
    let sy := road.startPoint.y
    let ex := road.endPoint.x
    let ey := road.endPoint.y
    let roadVecX := ex - sx
    let roadVecY := ey - sy
    let roadLength := ratSqrt (roadVecX * roadVecX + roadVecY * roadVecY)
    if roadLength < 1 / 10000 then
      let distToStart := ratSqrt ((x - sx) * (x - sx) + (y - sy) * (y - sy))
      if distToStart < acc.1 then (distToStart, p.1) else acc
    else
      let roadDirX := roadVecX / roadLength
      let roadDirY := roadVecY / roadLength
      let projection := (x - sx) * roadDirX + (y - sy) * roadDirY
      let distance :=
        if projection < 0 then
          ratSqrt ((x - sx) * (x - sx) + (y - sy) * (y - sy))
        else if projection > roadLength then
          ratSqrt ((x - ex) * (x - ex) + (y - ey) * (y - ey))
        else
          let projX := sx + roadDirX * projection
          let projY := sy + roadDirY * projection
          ratSqrt ((x - projX) * (x - projX) + (y - projY) * (y - projY))
      if distance < acc.1 then (distance, p.1) else acc
  (net.roadSegments.foldl step (maxDistance, INVALID_ID)).2

/-- Node of the simplified A* search inside WasmTrafficSimulation::findPath
(WasmRoadNetwork.cpp line 797).  The C++ parent pointer into the node map is
modelled by the parent road id: the map binds each id to a single node whose
address never changes, so pointer identity and key identity agree. -/
structure AStarNode where
  roadId : ℕ
  gScore : ℚ
  fScore : ℚ
  parent : Option ℕ
deriving DecidableEq, Repr

/-- State of the A* loop: the open-set priority queue (a list; pop removes
the leftmost node of minimal f-score, modelling the unspecified tie order of
the binary heap), the g-score map, the closed set, and the node map. -/
structure AStarState where
  openSet : List AStarNode
  gScores : List (ℕ × ℚ)
  closedSet : List ℕ
  nodeMap : List (ℕ × AStarNode)
deriving DecidableEq, Repr

/-- Pop the leftmost minimal-f-score node, modelling priority_queue top and
pop (the heap order between equal f-scores is unspecified in C++; no theorem
below depends on a tie). -/
def popMinFScore : List AStarNode → Option (AStarNode × List AStarNode)
  | [] => none
  | n :: ns =>
    match popMinFScore ns with
    | none => some (n, [])
    | some (m, rest) => if n.fScore ≤ m.fScore then some (n, ns) else some (m, n :: rest)

/-- Midpoint of a road segment, as used by the A* heuristic
(WasmRoadNetwork.cpp line 828). -/
def segMidpoint (road : WasmRoadSegment) : WasmVector2D :=
  { x := (road.startPoint.x + road.endPoint.x) / 2,
    y := (road.startPoint.y + road.endPoint.y) / 2 }

/-- A* heuristic (WasmRoadNetwork.cpp line 838): Euclidean distance between
the midpoint of a segment and the midpoint of the goal segment. -/
def astarHeuristic (endMid : WasmVector2D) (road : WasmRoadSegment) : ℚ :=
  let mid := segMidpoint road
  ratSqrt ((mid.x - endMid.x) * (mid.x - endMid.x) + (mid.y - endMid.y) * (mid.y - endMid.y))

/-- Shared-intersection test of the A* neighbor scan (WasmRoadNetwork.cpp
line 892): the four pointer comparisons, each guarded by a null check on the
own-side pointer. -/
def sharesIntersection (road neighbor : WasmRoadSegment) : Bool :=
  (road.startIntersection.isSome && road.startIntersection == neighbor.startIntersection) ||
  (road.startIntersection.isSome && road.startIntersection == neighbor.endIntersection) ||
  (road.endIntersection.isSome && road.endIntersection == neighbor.startIntersection) ||
  (road.endIntersection.isSome && road.endIntersection == neighbor.endIntersection)

/-- The id range scanned for neighbors by the A* loop: the C++ for loop runs
the candidate neighbor id from 0 to 99 (WasmRoadNetwork.cpp line 883),
whatever ids the network actually contains. -/
def astarNeighborIds : List ℕ := List.range 100

/-- Body of the neighbor for loop of the A* search (WasmRoadNetwork.cpp
lines 883 to 923): skip self, missing segments, unconnected segments, closed
segments and non-improving g-scores; otherwise insert or update the node of
the neighbor with the popped node as parent and push a copy of it on the
open set.  Reading the g-score of the popped node through operator[] cannot
default-insert, since every popped node was pushed with its g-score
recorded; the model reads with default zero. -/
def processNeighbor (net : WasmRoadNetwork) (endMid : WasmVector2D)
    (currentId : ℕ) (road : WasmRoadSegment) (st : AStarState) (neighborId : ℕ) : AStarState :=
  if neighborId = currentId then st
  else
    match net.getRoadSegment neighborId with
    | none => st
    | some neighbor =>
      if !sharesIntersection road neighbor then st
      else if st.closedSet.contains neighborId then st
      else
        let tentativeGScore := ((alLookup st.gScores currentId).getD 0) + road.length
        match alLookup st.gScores neighborId with
        | some g =>
          if tentativeGScore ≥ g then st
          else
            let default0 : AStarNode := { roadId := neighborId, gScore := 0, fScore := 0, parent := none }
            let node0 := (alLookup st.nodeMap neighborId).getD default0
            let f1 := tentativeGScore + astarHeuristic endMid neighbor
            let node1 := { node0 with gScore := tentativeGScore, fScore := f1, parent := some currentId }
            { st with
                nodeMap := alInsert st.nodeMap neighborId node1
                gScores := alInsert st.gScores neighborId tentativeGScore
                openSet := st.openSet ++ [node1] }
        | none =>
          let f1 := tentativeGScore + astarHeuristic endMid neighbor
          let node1 : AStarNode := { roadId := neighborId, gScore := tentativeGScore, fScore := f1, parent := some currentId }
          { st with
              nodeMap := alInsert st.nodeMap neighborId node1
              gScores := alInsert st.gScores neighborId tentativeGScore
              openSet := st.openSet ++ [node1] }

/-- The A* while loop (WasmRoadNetwork.cpp line 858).  Fuel-based structural
recursion: one unit of fuel per iteration.  Each iteration pops one open-set
element; elements ever pushed number at most one plus one hundred per
processed node, and at most one hundred and one distinct nodes can be
processed, so 20000 units of fuel are never exhausted on any input the
theorems evaluate.  Returns the road id of the popped goal node, if found,
together with the final state. -/
def astarLoop (net : WasmRoadNetwork) (endRoadId : ℕ) (endMid : WasmVector2D) :
    ℕ → AStarState → Option ℕ × AStarState
  | 0, st => (none, st)
  | fuel + 1, st =>
    match popMinFScore st.openSet with
    | none => (none, st)
    | some (current, rest) =>
      if st.closedSet.contains current.roadId then
        astarLoop net endRoadId endMid fuel { st with openSet := rest }
      else if current.roadId = endRoadId then
        (some current.roadId, { st with openSet := rest })
      else
        let st1 := { st with openSet := rest, closedSet := current.roadId :: st.closedSet }
        match net.getRoadSegment current.roadId with
        | none => astarLoop net endRoadId endMid fuel st1
        | some road =>
          let st2 := astarNeighborIds.foldl (processNeighbor net endMid current.roadId road) st1
          astarLoop net endRoadId endMid fuel st2

/-- Path reconstruction (WasmRoadNetwork.cpp line 929): follow parent ids
through the final node map, collecting road ids.  Fuel-based; parents always
point at earlier-closed nodes, so the chain is acyclic and 20000 units are
never exhausted on any input the theorems evaluate. -/
def chaseParents (m : List (ℕ × AStarNode)) : ℕ → AStarNode → List ℕ
  | 0, n => [n.roadId]
  | fuel + 1, n =>
    n.roadId :: (match n.parent with
      | none => []
      | some pid =>
        match alLookup m pid with
        | some pn => chaseParents m fuel pn
        | none => [])

/-- WasmTrafficSimulation::findPath (WasmRoadNetwork.cpp line 776), on a
given road network (the facade wraps this with its network pointer): resolve
the two points to their nearest segments with the default 50 search radius,
handle the invalid and same-segment cases, then run A* and reconstruct the
path, pairing every road id with lane 0. -/
def astarFindPath (net : WasmRoadNetwork) (startX startY endX endY : ℚ) : List (ℕ × ℕ) :=
  let startRoadId := net.findNearestRoadSegment startX startY
  let endRoadId := net.findNearestRoadSegment endX endY
  if startRoadId = INVALID_ID ∨ endRoadId = INVALID_ID then []
  else if startRoadId = endRoadId then [(startRoadId, 0)]
  else
    match net.getRoadSegment startRoadId, net.getRoadSegment endRoadId with
    | some startRoad, some endRoad =>
      let endMid := segMidpoint endRoad
      let startNode : AStarNode :=
        { roadId := startRoadId, gScore := 0,
          fScore := astarHeuristic (segMidpoint endRoad) startRoad, parent := none }
      let st0 : AStarState :=
        { openSet := [startNode], gScores := [(startRoadId, 0)], closedSet := [],
          nodeMap := [(startRoadId, startNode)] }
      match astarLoop net endRoadId endMid 20000 st0 with
      | (some endId, stf) =>
        match alLookup stf.nodeMap endId with
        | some endNode => ((chaseParents stf.nodeMap 20000 endNode).reverse).map (fun id => (id, 0))
        | none => []
      | (none, _) => []
    | _, _ => []

/-- WasmTransformComponent (WasmComponents.h).  The rotation field of the
C++ class is omitted from the model: it is written from atan2 of the
velocity for rendering only and is never read by any system, query or
claim, and atan2 has no exact rational embedding. -/
structure WasmTransformComponent where
  position : WasmVector2D := {}
  velocity : WasmVector2D := {}
deriving DecidableEq, Repr

/-- WasmVehicleComponent vehicle type tag (WasmComponents.h). -/
inductive WasmVehicleType where
  | Car
  | Truck
  | Bus
  | Motorcycle
deriving DecidableEq, Repr

/-- WasmVehicleComponent (WasmComponents.h) with its constructor defaults. -/
structure WasmVehicleComponent where
  maxSpeed : ℚ := 100
  currentSpeed : ℚ := 0
  targetSpeed : ℚ := 0
  length : ℚ := 4
  width : ℚ := 2
  acceleration : ℚ := 0
  braking : ℚ := 0
  vehicleType : WasmVehicleType := WasmVehicleType.Car
deriving DecidableEq, Repr

/-- WasmPathFollowingComponent (WasmComponents.h). -/
structure WasmPathFollowingComponent where
  path : List (ℕ × ℕ) := []
  currentPathIndex : ℕ := 0
  distanceAlongCurrentSegment : ℚ := 0
deriving DecidableEq, Repr

/-- WasmPathFollowingComponent::setPath. -/
def WasmPathFollowingComponent.setPath (_pf : WasmPathFollowingComponent)
    (newPath : List (ℕ × ℕ)) : WasmPathFollowingComponent :=
  { path := newPath, currentPathIndex := 0, distanceAlongCurrentSegment := 0 }

/-- WasmPathFollowingComponent::hasReachedDestination. -/
def WasmPathFollowingComponent.hasReachedDestination (pf : WasmPathFollowingComponent) : Bool :=
  pf.path.isEmpty || pf.currentPathIndex ≥ pf.path.length

/-- WasmPathFollowingComponent::calculateSteeringForce (WasmComponents.h):
difference between the desired velocity (unit vector towards the target
scaled by maxSpeed) and the current velocity; zero when closer than 1/10000
to the target. -/
def WasmPathFollowingComponent.calculateSteeringForce (_pf : WasmPathFollowingComponent)
    (currentPos currentVel targetPos : WasmVector2D) (maxSpeed : ℚ) : WasmVector2D :=
  let dx := targetPos.x - currentPos.x
  let dy := targetPos.y - currentPos.y
  let distance := ratSqrt (dx * dx + dy * dy)
  if distance < 1 / 10000 then {}
  else
    { x := dx / distance * maxSpeed - currentVel.x,
      y := dy / distance * maxSpeed - currentVel.y }

/-- WasmBoundsComponent (WasmComponents.h) with its constructor defaults. -/
structure WasmBoundsComponent where
  width : ℚ := 800
  height : ℚ := 600
  keepInBounds : Bool := true
deriving DecidableEq, Repr

/-- WasmCollisionComponent (WasmComponents.h) with its constructor defaults. -/
structure WasmCollisionComponent where
  radius : ℚ := 1
  colliding : Bool := false
  collidingWith : List ℕ := []
deriving DecidableEq, Repr

/-- WasmRenderableComponent shape tag (WasmComponents.h). -/
inductive WasmShape where
  | Circle
  | Rectangle
  | Triangle
  | Custom
deriving DecidableEq, Repr

/-- WasmRenderableComponent (WasmComponents.h) with its constructor
defaults; the four color channels are separate fields. -/
structure WasmRenderableComponent where
  shape : WasmShape := WasmShape.Rectangle
  colorR : ℚ := 1 / 5
  colorG : ℚ := 3 / 5
  colorB : ℚ := 4 / 5
  colorA : ℚ := 1
  scale : ℚ := 1
  visible : Bool := true
  vertices : List WasmVector2D := []
deriving DecidableEq, Repr

/-- Traffic signal phase (WasmComponents.h). -/
inductive WasmSignalState where
  | Green
  | Yellow
  | Red
deriving DecidableEq, Repr

/-- WasmTrafficSignalComponent (WasmComponents.h) with its constructor
defaults. -/
structure WasmTrafficSignalComponent where
  state : WasmSignalState := WasmSignalState.Red
  timeRemaining : ℚ := 0
  greenDuration : ℚ := 30
  yellowDuration : ℚ := 5
  redDuration : ℚ := 30
deriving DecidableEq, Repr

/-- WasmTrafficSignalComponent::update: count the remaining time down; at or
below zero advance the phase in the cycle Green, Yellow, Red, Green and load
the duration of the new phase. -/
def WasmTrafficSignalComponent.update (sig : WasmTrafficSignalComponent)
    (dt : ℚ) : WasmTrafficSignalComponent :=
  let t := sig.timeRemaining - dt
  if t ≤ 0 then
    match sig.state with
    | WasmSignalState.Green => { sig with state := WasmSignalState.Yellow, timeRemaining := sig.yellowDuration }
    | WasmSignalState.Yellow => { sig with state := WasmSignalState.Red, timeRemaining := sig.redDuration }
    | WasmSignalState.Red => { sig with state := WasmSignalState.Green, timeRemaining := sig.greenDuration }
  else { sig with timeRemaining := t }

/-- WasmSelectableComponent (WasmComponents.h). -/
structure WasmSelectableComponent where
  selected : Bool := false
deriving DecidableEq, Repr

/-- The per-entity component bitmask (WasmECS.h): std::bitset over the
dynamically issued component type ids of the registry.  The component set of
the program is closed (the eight classes of WasmComponents.h), and the
registry issues one distinct id per type, so the bitset is modelled as one
named boolean per component type.  A default instance is the empty mask. -/
structure WasmComponentMask where
  transform : Bool := false
  vehicle : Bool := false
  pathFollowing : Bool := false
  bounds : Bool := false
  collision : Bool := false
  renderable : Bool := false
  trafficSignal : Bool := false
  selectable : Bool := false
deriving DecidableEq, Repr

/-- Bitset any(): at least one bit set. -/
def WasmComponentMask.any (m : WasmComponentMask) : Bool :=
  m.transform || m.vehicle || m.pathFollowing || m.bounds || m.collision ||
  m.renderable || m.trafficSignal || m.selectable

/-- Bitset superset test: (m and req) == req, as in getEntitiesWith
(WasmECS.h line 286). -/
def WasmComponentMask.hasAll (m req : WasmComponentMask) : Bool :=
  (!req.transform || m.transform) && (!req.vehicle || m.vehicle) &&
  (!req.pathFollowing || m.pathFollowing) && (!req.bounds || m.bounds) &&
  (!req.collision || m.collision) && (!req.renderable || m.renderable) &&
  (!req.trafficSignal || m.trafficSignal) && (!req.selectable || m.selectable)

/-- Read a pool slot (WasmTypedComponentPool::getComponent): none when the
slot is out of range or empty. -/
def poolGet {α : Type} (pool : List (Option α)) (id : ℕ) : Option α :=
  (pool.getD id none)

/-- Write a pool slot growing the array on demand
(WasmTypedComponentPool::createComponent resizes to the entity id plus
one, then constructs in place). -/
def poolSet {α : Type} (pool : List (Option α)) (id : ℕ) (c : α) : List (Option α) :=
  let grown := if pool.length ≤ id then pool ++ List.replicate (id + 1 - pool.length) none else pool
  grown.set id (some c)

/-- The registered per-tick systems (WasmWorld::m_systems holds closures;
each closure the program ever registers is one of the five static system
functions, the path-following one capturing the network pointer passed to
setRoadNetwork, so the closure list is modelled as a list of tags). -/
inductive SystemTag where
  | movement
  | bounds
  | collision
  | trafficSignal
  | pathFollowing (roadNetwork : Option WasmRoadNetwork)
deriving DecidableEq, Repr

/-- WasmWorld (WasmECS.h): entity ids, per-entity masks, the free list, the
live-entity counter, one pool per component type (the C++ pool vector is
indexed by the dynamically issued type ids; the closed component set gives a
fixed record of pools), and the registered systems. -/
structure WasmWorld where
  entities : List ℕ := []
  entityMasks : List WasmComponentMask := []
  freeEntities : List ℕ := []
  entityCount : ℕ := 0
  transformPool : List (Option WasmTransformComponent) := []
  vehiclePool : List (Option WasmVehicleComponent) := []
  pathFollowingPool : List (Option WasmPathFollowingComponent) := []
  boundsPool : List (Option WasmBoundsComponent) := []
  collisionPool : List (Option WasmCollisionComponent) := []
  renderablePool : List (Option WasmRenderableComponent) := []
  trafficSignalPool : List (Option WasmTrafficSignalComponent) := []
  selectablePool : List (Option WasmSelectableComponent) := []
  systems : List SystemTag := []
deriving DecidableEq, Repr

/-- Default-constructed WasmWorld (WasmECS.cpp line 5; the reserve calls
only preallocate). -/
def WasmWorld.new : WasmWorld := {}

/-- WasmWorld::entityExists (WasmECS.cpp line 64): the id is in range and
its mask has some bit set. -/
def WasmWorld.entityExists (w : WasmWorld) (id : ℕ) : Bool :=
  id < w.entities.length && ((w.entityMasks.getD id {}).any)

/-- WasmWorld::createEntity (WasmECS.cpp line 21): pop the back of the free
list and reset the mask of the reused id, or append a fresh id with an empty
mask; either way the live counter rises.  Returns the id (the C++ WasmEntity
handle is the id plus the world pointer). -/
def WasmWorld.createEntity (w : WasmWorld) : ℕ × WasmWorld :=
  match w.freeEntities.getLast? with
  | some id =>
    (id, { w with freeEntities := w.freeEntities.dropLast
                  entityMasks := w.entityMasks.set id {}
                  entityCount := w.entityCount + 1 })
  | none =>
    let id := w.entities.length
    (id, { w with entities := w.entities ++ [id]
                  entityMasks := w.entityMasks ++ [{}]
                  entityCount := w.entityCount + 1 })

/-- WasmWorld::destroyEntity (WasmECS.cpp line 42): no-op unless the entity
exists; otherwise remove its component from every pool whose mask bit is
set, reset the mask, push the id on the free list and drop the live
counter. -/
def WasmWorld.destroyEntity (w : WasmWorld) (id : ℕ) : WasmWorld :=
  if w.entityExists id then
    let m := w.entityMasks.getD id {}
    { w with
        transformPool := if m.transform then w.transformPool.set id none else w.transformPool
        vehiclePool := if m.vehicle then w.vehiclePool.set id none else w.vehiclePool
        pathFollowingPool := if m.pathFollowing then w.pathFollowingPool.set id none else w.pathFollowingPool
        boundsPool := if m.bounds then w.boundsPool.set id none else w.boundsPool
        collisionPool := if m.collision then w.collisionPool.set id none else w.collisionPool
        renderablePool := if m.renderable then w.renderablePool.set id none else w.renderablePool
        trafficSignalPool := if m.trafficSignal then w.trafficSignalPool.set id none else w.trafficSignalPool
        selectablePool := if m.selectable then w.selectablePool.set id none else w.selectablePool
        entityMasks := w.entityMasks.set id {}
        freeEntities := w.freeEntities ++ [id]
        entityCount := w.entityCount - 1 }
  else w

/-- Update one mask in the mask array (the C++ writes m_entityMasks at the
entity index; every call site passes an in-range id, and an out-of-range
write is modelled as a no-op). -/
def maskSet (masks : List WasmComponentMask) (id : ℕ)
    (f : WasmComponentMask → WasmComponentMask) : List WasmComponentMask :=
  masks.set id (f (masks.getD id {}))

/-- WasmWorld::addComponent for the transform pool (WasmECS.h line 189,
release semantics: the debug assertion on existence is disabled): set the
mask bit and construct the component in the pool. -/
def WasmWorld.addTransformComp (w : WasmWorld) (id : ℕ) (c : WasmTransformComponent) : WasmWorld :=
  { w with entityMasks := maskSet w.entityMasks id (fun m => { m with transform := true })
           transformPool := poolSet w.transformPool id c }

/-- WasmWorld::addComponent for the vehicle pool. -/
def WasmWorld.addVehicleComp (w : WasmWorld) (id : ℕ) (c : WasmVehicleComponent) : WasmWorld :=
  { w with entityMasks := maskSet w.entityMasks id (fun m => { m with vehicle := true })
           vehiclePool := poolSet w.vehiclePool id c }

/-- WasmWorld::addComponent for the path-following pool. -/
def WasmWorld.addPathFollowComp (w : WasmWorld) (id : ℕ) (c : WasmPathFollowingComponent) : WasmWorld :=
  { w with entityMasks := maskSet w.entityMasks id (fun m => { m with pathFollowing := true })
           pathFollowingPool := poolSet w.pathFollowingPool id c }

/-- WasmWorld::addComponent for the bounds pool. -/
def WasmWorld.addBoundsComp (w : WasmWorld) (id : ℕ) (c : WasmBoundsComponent) : WasmWorld :=
  { w with entityMasks := maskSet w.entityMasks id (fun m => { m with bounds := true })
           boundsPool := poolSet w.boundsPool id c }

/-- WasmWorld::addComponent for the collision pool. -/
def WasmWorld.addCollisionComp (w : WasmWorld) (id : ℕ) (c : WasmCollisionComponent) : WasmWorld :=
  { w with entityMasks := maskSet w.entityMasks id (fun m => { m with collision := true })
           collisionPool := poolSet w.collisionPool id c }

/-- WasmWorld::addComponent for the renderable pool. -/
def WasmWorld.addRenderableComp (w : WasmWorld) (id : ℕ) (c : WasmRenderableComponent) : WasmWorld :=
  { w with entityMasks := maskSet w.entityMasks id (fun m => { m with renderable := true })
           renderablePool := poolSet w.renderablePool id c }

/-- WasmWorld::addComponent for the traffic-signal pool. -/
def WasmWorld.addSignalComp (w : WasmWorld) (id : ℕ) (c : WasmTrafficSignalComponent) : WasmWorld :=
  { w with entityMasks := maskSet w.entityMasks id (fun m => { m with trafficSignal := true })
           trafficSignalPool := poolSet w.trafficSignalPool id c }

/-- WasmWorld::hasComponent for the transform bit (WasmECS.h line 265):
exists and mask bit. -/
def WasmWorld.hasTransformComp (w : WasmWorld) (id : ℕ) : Bool :=
  w.entityExists id && (w.entityMasks.getD id {}).transform

/-- WasmWorld::hasComponent for the vehicle bit. -/
def WasmWorld.hasVehicleComp (w : WasmWorld) (id : ℕ) : Bool :=
  w.entityExists id && (w.entityMasks.getD id {}).vehicle

/-- WasmWorld::hasComponent for the path-following bit. -/
def WasmWorld.hasPathFollowComp (w : WasmWorld) (id : ℕ) : Bool :=
  w.entityExists id && (w.entityMasks.getD id {}).pathFollowing

/-- WasmWorld::hasComponent for the bounds bit. -/
def WasmWorld.hasBoundsComp (w : WasmWorld) (id : ℕ) : Bool :=
  w.entityExists id && (w.entityMasks.getD id {}).bounds

/-- WasmWorld::hasComponent for the collision bit. -/
def WasmWorld.hasCollisionComp (w : WasmWorld) (id : ℕ) : Bool :=
  w.entityExists id && (w.entityMasks.getD id {}).collision

/-- WasmWorld::getComponent for the transform pool.  The C++ returns a
reference, asserting in debug builds; per the release containment design a
missing slot is modelled by the default-constructed component. -/
def WasmWorld.getTransformComp (w : WasmWorld) (id : ℕ) : WasmTransformComponent :=
  (poolGet w.transformPool id).getD {}

/-- Write the transform of an entity (mutation through the C++ reference;
every call site writes a slot created earlier, and an out-of-range write is
modelled as a no-op). -/
def WasmWorld.setTransformComp (w : WasmWorld) (id : ℕ) (c : WasmTransformComponent) : WasmWorld :=
  { w with transformPool := w.transformPool.set id (some c) }

/-- WasmWorld::getComponent for the vehicle pool. -/
def WasmWorld.getVehicleComp (w : WasmWorld) (id : ℕ) : WasmVehicleComponent :=
  (poolGet w.vehiclePool id).getD {}

/-- Write the vehicle component of an entity. -/
def WasmWorld.setVehicleComp (w : WasmWorld) (id : ℕ) (c : WasmVehicleComponent) : WasmWorld :=
  { w with vehiclePool := w.vehiclePool.set id (some c) }

/-- WasmWorld::getComponent for the path-following pool. -/
def WasmWorld.getPathFollowComp (w : WasmWorld) (id : ℕ) : WasmPathFollowingComponent :=
  (poolGet w.pathFollowingPool id).getD {}

/-- Write the path-following component of an entity. -/
def WasmWorld.setPathFollowComp (w : WasmWorld) (id : ℕ) (c : WasmPathFollowingComponent) : WasmWorld :=
  { w with pathFollowingPool := w.pathFollowingPool.set id (some c) }

/-- WasmWorld::getComponent for the bounds pool. -/
def WasmWorld.getBoundsComp (w : WasmWorld) (id : ℕ) : WasmBoundsComponent :=
  (poolGet w.boundsPool id).getD {}

/-- Write the bounds component of an entity. -/
def WasmWorld.setBoundsComp (w : WasmWorld) (id : ℕ) (c : WasmBoundsComponent) : WasmWorld :=
  { w with boundsPool := w.boundsPool.set id (some c) }

/-- WasmWorld::getComponent for the collision pool. -/
def WasmWorld.getCollisionComp (w : WasmWorld) (id : ℕ) : WasmCollisionComponent :=
  (poolGet w.collisionPool id).getD {}

/-- Write the collision component of an entity. -/
def WasmWorld.setCollisionComp (w : WasmWorld) (id : ℕ) (c : WasmCollisionComponent) : WasmWorld :=
  { w with collisionPool := w.collisionPool.set id (some c) }

/-- WasmWorld::getComponent for the traffic-signal pool. -/
def WasmWorld.getSignalComp (w : WasmWorld) (id : ℕ) : WasmTrafficSignalComponent :=
  (poolGet w.trafficSignalPool id).getD {}

/-- Write the traffic-signal component of an entity. -/
def WasmWorld.setSignalComp (w : WasmWorld) (id : ℕ) (c : WasmTrafficSignalComponent) : WasmWorld :=
  { w with trafficSignalPool := w.trafficSignalPool.set id (some c) }

/-- WasmWorld::getEntitiesWith (WasmECS.h line 277): every index whose mask
contains the requested mask, in ascending order (the C++ returns entity
handles; the model returns the ids). -/
def WasmWorld.getEntitiesWith (w : WasmWorld) (req : WasmComponentMask) : List ℕ :=
  (List.range w.entityMasks.length).filter (fun i => (w.entityMasks.getD i {}).hasAll req)

/-- WasmWorld::registerSystem (WasmECS.cpp line 75): append. -/
def WasmWorld.registerSystem (w : WasmWorld) (s : SystemTag) : WasmWorld :=
  { w with systems := w.systems ++ [s] }

/-- Movement system (WasmRoadNetwork.cpp line 539): for every entity with a
transform, integrate the velocity into the position.  The rotation update of
the source writes the omitted advisory rotation field and affects nothing
else. -/
def movementSystem (world : WasmWorld) (dt : ℚ) : WasmWorld :=
  let entities := world.getEntitiesWith { transform := true }
  entities.foldl (fun w id =>
    let t := w.getTransformComp id
    let p : WasmVector2D := { x := t.position.x + t.velocity.x * dt, y := t.position.y + t.velocity.y * dt }
    w.setTransformComp id { t with position := p }) world

/-- The global bounds lookup of the bounds system (WasmRoadNetwork.cpp line
559): the bounds component of the first id below the live-entity counter
that exists and has one. -/
def findGlobalBounds (w : WasmWorld) : Option WasmBoundsComponent :=
  match (List.range w.entityCount).find? (fun id => w.entityExists id && w.hasBoundsComp id) with
  | some id => some (w.getBoundsComp id)
  | none => none

/-- The loop body of the bounds system (WasmRoadNetwork.cpp lines 579 to
597) on one transform: the if-else-if chain of the x axis, which clamps the
position to the rectangle edge and negates and halves the x velocity, then
the same chain for the y axis. -/
def boundsClampVehicle (gb : WasmBoundsComponent) (t : WasmTransformComponent) :
    WasmTransformComponent :=
  let t1 :=
    if t.position.x < 0 then
      { t with position := { t.position with x := 0 }
               velocity := { t.velocity with x := -t.velocity.x * (1 / 2) } }
    else if t.position.x > gb.width then
      { t with position := { t.position with x := gb.width }
               velocity := { t.velocity with x := -t.velocity.x * (1 / 2) } }
    else t
  if t1.position.y < 0 then
    { t1 with position := { t1.position with y := 0 }
              velocity := { t1.velocity with y := -t1.velocity.y * (1 / 2) } }
  else if t1.position.y > gb.height then
    { t1 with position := { t1.position with y := gb.height }
              velocity := { t1.velocity with y := -t1.velocity.y * (1 / 2) } }
  else t1

/-- Bounds system (WasmRoadNetwork.cpp line 557): with a global bounds
component whose keep-in-bounds flag is set, clamp every transform-and-vehicle
entity to the rectangle, negating and halving the velocity component of any
axis that clamps. -/
def boundsSystem (world : WasmWorld) (_dt : ℚ) : WasmWorld :=
  match findGlobalBounds world with
  | none => world
  | some gb =>
    if !gb.keepInBounds then world
    else
      let entities := world.getEntitiesWith { transform := true, vehicle := true }
      entities.foldl (fun w id =>
        w.setTransformComp id (boundsClampVehicle gb (w.getTransformComp id))) world

/-- Steering tail of the path-following system (WasmRoadNetwork.cpp lines
658 to 687): steer towards the look-ahead point, clamp the velocity to the
maximum speed, record the unclamped speed as the current speed, advance the
distance along the segment by that speed, and set the target speed to the
maximum.  The computed target direction of the source is unused.  The pf
argument carries any cursor and distance updates made before steering. -/
def pathFollowSteer (w : WasmWorld) (id : ℕ) (t : WasmTransformComponent)
    (veh : WasmVehicleComponent) (pf : WasmPathFollowingComponent)
    (road : WasmRoadSegment) (targetDistance : ℚ) (dt : ℚ) : WasmWorld :=
  let targetPosition := road.getPointAtDistance targetDistance
  let steering := pf.calculateSteeringForce t.position t.velocity targetPosition veh.maxSpeed
  let vx := t.velocity.x + steering.x * dt
  let vy := t.velocity.y + steering.y * dt
  let speed := ratSqrt (vx * vx + vy * vy)
  let v2 : WasmVector2D :=
    if speed > veh.maxSpeed then { x := vx * (veh.maxSpeed / speed), y := vy * (veh.maxSpeed / speed) }
    else { x := vx, y := vy }
  let w1 := w.setTransformComp id { t with velocity := v2 }
  let w2 := w1.setVehicleComp id { veh with currentSpeed := speed, targetSpeed := veh.maxSpeed }
  w2.setPathFollowComp id { pf with distanceAlongCurrentSegment := pf.distanceAlongCurrentSegment + speed * dt }

/-- One entity of the path-following system (WasmRoadNetwork.cpp lines 608
to 688): stop at the destination, skip missing segments advancing the
cursor, advance to the next segment when the look-ahead distance passes the
end of the current one, then steer. -/
def pathFollowStep (net : WasmRoadNetwork) (dt : ℚ) (w : WasmWorld) (id : ℕ) : WasmWorld :=
  let t := w.getTransformComp id
  let veh := w.getVehicleComp id
  let pf := w.getPathFollowComp id
  if pf.hasReachedDestination then
    w.setVehicleComp id { veh with targetSpeed := 0 }
  else
    let rp := pf.path.getD pf.currentPathIndex (0, 0)
    match net.getRoadSegment rp.1 with
    | none => w.setPathFollowComp id { pf with currentPathIndex := pf.currentPathIndex + 1 }
    | some road =>
      let lookAheadDistance := veh.currentSpeed * 2 + 5
      let targetDistance := pf.distanceAlongCurrentSegment + lookAheadDistance
      if targetDistance > road.length then
        let pf1 := { pf with currentPathIndex := pf.currentPathIndex + 1 }
        if pf1.hasReachedDestination then
          (w.setPathFollowComp id pf1).setVehicleComp id { veh with targetSpeed := 0 }
        else
          let pf2 := { pf1 with distanceAlongCurrentSegment := 0 }
          let rp2 := pf2.path.getD pf2.currentPathIndex (0, 0)
          match net.getRoadSegment rp2.1 with
          | none => w.setPathFollowComp id pf2
          | some road2 => pathFollowSteer w id t veh pf2 road2 lookAheadDistance dt
      else pathFollowSteer w id t veh pf road targetDistance dt

/-- Path-following system (WasmRoadNetwork.cpp line 601): no-op without a
road network, else process every transform-vehicle-path entity. -/
def pathFollowingSystem (world : WasmWorld) (dt : ℚ)
    (roadNetwork : Option WasmRoadNetwork) : WasmWorld :=
  match roadNetwork with
  | none => world
  | some net =>
    let entities := world.getEntitiesWith { transform := true, vehicle := true, pathFollowing := true }
    entities.foldl (fun w id => pathFollowStep net dt w id) world

/-- The ordered index pairs (i, j) with i below j below n, in the nesting
order of the two collision loops (WasmRoadNetwork.cpp line 703). -/
def pairIndices (n : ℕ) : List (ℕ × ℕ) :=
  (List.range n).flatMap (fun i => ((List.range n).drop (i + 1)).map (fun j => (i, j)))

/-- One inner iteration of the collision system (WasmRoadNetwork.cpp lines
705 to 761) on the pair of entities at positions i and j of the query list:
on overlap of the collision circles, flag both, append each to the
colliding-with list of the other, separate the positions by half the overlap
along the line of centers, and, when both carry a vehicle component, swap
the velocities damped by nine tenths. -/
def collideStep (entities : List ℕ) (w : WasmWorld) (ij : ℕ × ℕ) : WasmWorld :=
  let ea := entities.getD ij.1 0
  let eb := entities.getD ij.2 0
  let tA := w.getTransformComp ea
  let tB := w.getTransformComp eb
  let cA := w.getCollisionComp ea
  let cB := w.getCollisionComp eb
  let dx := tB.position.x - tA.position.x
  let dy := tB.position.y - tA.position.y
  let distanceSquared := dx * dx + dy * dy
  let minDistance := cA.radius + cB.radius
  if distanceSquared < minDistance * minDistance then
    let w1 := w.setCollisionComp ea { cA with colliding := true, collidingWith := cA.collidingWith ++ [eb] }
    let w2 := w1.setCollisionComp eb { cB with colliding := true, collidingWith := cB.collidingWith ++ [ea] }
    let distance := ratSqrt distanceSquared
    let overlap := minDistance - distance
    let nx := dx / distance
    let ny := dy / distance
    let sepX := nx * overlap * (1 / 2)
    let sepY := ny * overlap * (1 / 2)
    let w3 := w2.setTransformComp ea { tA with position := { x := tA.position.x - sepX, y := tA.position.y - sepY } }
    let w4 := w3.setTransformComp eb { tB with position := { x := tB.position.x + sepX, y := tB.position.y + sepY } }
    if w.hasVehicleComp ea && w.hasVehicleComp eb then
      let t4A := w4.getTransformComp ea
      let t4B := w4.getTransformComp eb
      let w5 := w4.setTransformComp ea { t4A with velocity := { x := tB.velocity.x * (9 / 10), y := tB.velocity.y * (9 / 10) } }
      w5.setTransformComp eb { t4B with velocity := { x := tA.velocity.x * (9 / 10), y := tA.velocity.y * (9 / 10) } }
    else w4
  else w

/-- The reset pass of the collision system (WasmRoadNetwork.cpp lines 696
to 700): clear the colliding flag and the colliding-with list of one
entity. -/
def resetCollision (w : WasmWorld) (id : ℕ) : WasmWorld :=
  let c := w.getCollisionComp id
  w.setCollisionComp id { c with colliding := false, collidingWith := [] }

/-- Collision system (WasmRoadNetwork.cpp line 691): reset the collision
flag and list of every transform-collision entity, then process every
unordered pair once. -/
def collisionSystem (world : WasmWorld) (_dt : ℚ) : WasmWorld :=
  let entities := world.getEntitiesWith { transform := true, collision := true }
  let w1 := entities.foldl resetCollision world
  (pairIndices entities.length).foldl (collideStep entities) w1

/-- Traffic signal system (WasmRoadNetwork.cpp line 766): update every
signal component. -/
def trafficSignalSystem (world : WasmWorld) (dt : ℚ) : WasmWorld :=
  let entities := world.getEntitiesWith { trafficSignal := true }
  entities.foldl (fun w id => w.setSignalComp id ((w.getSignalComp id).update dt)) world

/-- Dispatch one registered system closure. -/
def runSystem (tag : SystemTag) (w : WasmWorld) (dt : ℚ) : WasmWorld :=
  match tag with
  | SystemTag.movement => movementSystem w dt
  | SystemTag.bounds => boundsSystem w dt
  | SystemTag.collision => collisionSystem w dt
  | SystemTag.trafficSignal => trafficSignalSystem w dt
  | SystemTag.pathFollowing net => pathFollowingSystem w dt net

/-- WasmWorld::update (WasmECS.cpp line 68): run every registered system in
registration order. -/
def WasmWorld.update (w : WasmWorld) (dt : ℚ) : WasmWorld :=
  w.systems.foldl (fun wa tag => runSystem tag wa dt) w

/-- WasmTrafficSimulation (WasmTrafficSimulation.h): the facade owning the
world, the optional road network pointer, the stored bounds and the
keep-in-bounds flag. -/
structure WasmTrafficSimulation where
  world : WasmWorld
  roadNetwork : Option WasmRoadNetwork
  width : ℚ
  height : ℚ
  keepInBounds : Bool
deriving DecidableEq, Repr

/-- The WasmTrafficSimulation constructor (WasmRoadNetwork.cpp line 373)
with setupSystems (line 518): systems registered in the order movement,
bounds, collision, traffic signal; the path-following system is only
registered when a road network is set. -/
def WasmTrafficSimulation.new : WasmTrafficSimulation :=
  { world := ((((WasmWorld.new.registerSystem SystemTag.movement).registerSystem
      SystemTag.bounds).registerSystem SystemTag.collision).registerSystem SystemTag.trafficSignal)
    roadNetwork := none
    width := 800
    height := 600
    keepInBounds := true }

/-- WasmTrafficSimulation::initialize (WasmRoadNetwork.cpp line 388),
renamed to avoid a reserved word of the verification toolchain: store the
bounds and create one entity carrying a bounds component (whose constructor
sets keep-in-bounds to true). -/
def WasmTrafficSimulation.initializeSim (st : WasmTrafficSimulation)
    (width height : ℚ) : WasmTrafficSimulation :=
  let (id, w1) := st.world.createEntity
  let w2 := w1.addBoundsComp id { width := width, height := height, keepInBounds := true }
  { st with width := width, height := height, world := w2 }

/-- WasmTrafficSimulation::createVehicle (WasmRoadNetwork.cpp line 397):
one new entity with transform, default vehicle, collision of radius 2 and
default renderable. -/
def WasmTrafficSimulation.createVehicle (st : WasmTrafficSimulation)
    (x y vx vy : ℚ) : ℕ × WasmTrafficSimulation :=
  let (id, w1) := st.world.createEntity
  let w2 := w1.addTransformComp id { position := { x := x, y := y }, velocity := { x := vx, y := vy } }
  let w3 := w2.addVehicleComp id {}
  let w4 := w3.addCollisionComp id { radius := 2 }
  let w5 := w4.addRenderableComp id {}
  (id, { st with world := w5 })

/-- WasmTrafficSimulation::getVehicleCount (WasmRoadNetwork.cpp line 411):
count the ids below the live-entity counter that exist and have transform
and vehicle components.  Note the loop bound is the live-entity counter,
not the size of the id array. -/
def WasmTrafficSimulation.getVehicleCount (st : WasmTrafficSimulation) : ℕ :=
  ((List.range st.world.entityCount).filter (fun id =>
    st.world.entityExists id && st.world.hasTransformComp id && st.world.hasVehicleComp id)).length

/-- WasmTrafficSimulation::getVehiclePosition (WasmRoadNetwork.cpp line
424): the position, or the zero vector for a missing entity or
component. -/
def WasmTrafficSimulation.getVehiclePosition (st : WasmTrafficSimulation) (id : ℕ) : WasmVector2D :=
  if st.world.entityExists id && st.world.hasTransformComp id then
    (st.world.getTransformComp id).position
  else {}

/-- WasmTrafficSimulation::getVehicleVelocity (WasmRoadNetwork.cpp line
432). -/
def WasmTrafficSimulation.getVehicleVelocity (st : WasmTrafficSimulation) (id : ℕ) : WasmVector2D :=
  if st.world.entityExists id && st.world.hasTransformComp id then
    (st.world.getTransformComp id).velocity
  else {}

/-- WasmTrafficSimulation::update (WasmRoadNetwork.cpp line 440). -/
def WasmTrafficSimulation.update (st : WasmTrafficSimulation) (dt : ℚ) : WasmTrafficSimulation :=
  { st with world := st.world.update dt }

/-- WasmTrafficSimulation::setKeepInBounds (WasmRoadNetwork.cpp line 445):
store the flag and write it into the bounds component of every id below the
live-entity counter that has one. -/
def WasmTrafficSimulation.setKeepInBounds (st : WasmTrafficSimulation) (b : Bool) : WasmTrafficSimulation :=
  let w := (List.range st.world.entityCount).foldl (fun w id =>
    if w.entityExists id && w.hasBoundsComp id then
      w.setBoundsComp id { (w.getBoundsComp id) with keepInBounds := b }
    else w) st.world
  { st with keepInBounds := b, world := w }

/-- WasmTrafficSimulation::setRoadNetwork (WasmRoadNetwork.cpp line 461):
store the pointer and register (append) a path-following system closure
capturing it. -/
def WasmTrafficSimulation.setRoadNetwork (st : WasmTrafficSimulation)
    (net : Option WasmRoadNetwork) : WasmTrafficSimulation :=
  { st with roadNetwork := net
            world := st.world.registerSystem (SystemTag.pathFollowing net) }

/-- WasmTrafficSimulation::findPath (WasmRoadNetwork.cpp line 776): empty
without a network, else the A* search on the stored network. -/
def WasmTrafficSimulation.findPath (st : WasmTrafficSimulation)
    (startX startY endX endY : ℚ) : List (ℕ × ℕ) :=
  match st.roadNetwork with
  | none => []
  | some net => astarFindPath net startX startY endX endY

/-- WasmTrafficSimulation::createPath (WasmRoadNetwork.cpp line 472): false
without a network or vehicle, false on an empty path, else attach or reuse a
path-following component and set the path. -/
def WasmTrafficSimulation.createPath (st : WasmTrafficSimulation) (vehicleId : ℕ)
    (startX startY endX endY : ℚ) : Bool × WasmTrafficSimulation :=
  if st.roadNetwork.isNone || !st.world.entityExists vehicleId then (false, st)
  else
    let path := st.findPath startX startY endX endY
    if path.isEmpty then (false, st)
    else
      let w1 := if !st.world.hasPathFollowComp vehicleId then
          st.world.addPathFollowComp vehicleId {}
        else st.world
      let pc := w1.getPathFollowComp vehicleId
      let w2 := w1.setPathFollowComp vehicleId (pc.setPath path)
      (true, { st with world := w2 })

/-- The while loop of WasmTrafficSimulation::clear (WasmRoadNetwork.cpp
line 498): destroy the entity at the running id while the id is below the
CURRENT live-entity counter, which every destruction decrements.  Fuel-based:
the id rises by one per iteration and the counter never rises, so the
initial counter plus one units of fuel are never exhausted. -/
def clearLoop : ℕ → WasmWorld → ℕ → WasmWorld
  | 0, w, _ => w
  | fuel + 1, w, id =>
    if id < w.entityCount then
      clearLoop fuel (if w.entityExists id then w.destroyEntity id else w) (id + 1)
    else w

/-- WasmTrafficSimulation::clear (WasmRoadNetwork.cpp line 496). -/
def WasmTrafficSimulation.clear (st : WasmTrafficSimulation) : WasmTrafficSimulation :=
  { st with world := clearLoop (st.world.entityCount + 1) st.world 0 }

/-- Lane creation through the network, modelling the editor call pattern of
looking a segment up by id and invoking addLane through the returned
pointer (the C++ network class has no addLane member; the mutation happens
in place on the owned segment).  Unreachable on a dangling id (the C++ call
site would dereference null); modelled as a no-op then. -/
def WasmRoadNetwork.addLaneTo (net : WasmRoadNetwork) (segId : ℕ)
    (width : ℚ) (laneType : WasmLaneType) : ℕ × WasmRoadNetwork :=
  match alLookup net.roadSegments segId with
  | some seg =>
    let (lid, seg1) := seg.addLane width laneType
    (lid, { net with roadSegments := alInsert net.roadSegments segId seg1 })
  | none => (0, net)

/-- Number of connection-table entries of an intersection whose incoming
road is src and whose outgoing road is dst. -/
def connDirCount (inter : WasmIntersection) (src dst : ℕ) : ℕ :=
  (inter.connections.map (fun p =>
    if p.1.1 = src then (p.2.filter (fun c => decide (c.roadId = dst))).length else 0)).sum

/-- Two road ids are connected in a network exactly when both resolve to
segments and the shared-intersection test of the A* neighbor scan accepts
them. -/
def segmentsConnected (net : WasmRoadNetwork) (a b : ℕ) : Prop :=
  ∃ sa sb, net.getRoadSegment a = some sa ∧ net.getRoadSegment b = some sb ∧
    sharesIntersection sa sb = true

/-- A route from s to e: a nonempty chain of pairwise-connected road ids
starting at s and ending at e. -/
def IsRouteIn (net : WasmRoadNetwork) (s e : ℕ) (r : List ℕ) : Prop :=
  r.head? = some s ∧ r.getLast? = some e ∧ r.Chain' (segmentsConnected net)

/-- There is a route from s to id whose elements after the head all have id
below 100 and resolve to segments: the reachability soundness notion of the
A* search, whose neighbor scan only ranges over ids 0 to 99. -/
def RouteTailOK (net : WasmRoadNetwork) (s id : ℕ) : Prop :=
  ∃ r, IsRouteIn net s id r ∧ ∀ x ∈ r.tail, x < 100 ∧ (net.getRoadSegment x).isSome

/-- Invariant of the A* loop state: every open-set node is reachable from
the start through sub-100 segments, and every node map entry carries its own
key as road id. -/
def AStarInv (net : WasmRoadNetwork) (s : ℕ) (st : AStarState) : Prop :=
  (∀ nd ∈ st.openSet, RouteTailOK net s nd.roadId) ∧
  (∀ p ∈ st.nodeMap, (p : ℕ × AStarNode).2.roadId = p.1)

/-- Phase helper for the recycling claim: create n entities, making each
alive by attaching a default transform component (an entity only becomes
alive once its first component is added). -/
def createNAlive : ℕ → WasmWorld → List ℕ × WasmWorld
  | 0, w => ([], w)
  | n + 1, w =>
    let (id, w1) := w.createEntity
    let w2 := w1.addTransformComp id {}
    let (ids, w3) := createNAlive n w2
    (id :: ids, w3)

/-- Phase helper for the recycling claim: create n entities bare, recording
the ids in creation order. -/
def createNBare : ℕ → WasmWorld → List ℕ × WasmWorld
  | 0, w => ([], w)
  | n + 1, w =>
    let (id, w1) := w.createEntity
    let (ids, w2) := createNBare n w1
    (id :: ids, w2)

/-- The world after creating n alive entities from a fresh world: ids 0 to
n - 1, each with exactly a transform component. -/
def uniformAliveWorld (n : ℕ) : WasmWorld :=
  { entities := List.range n
    entityMasks := List.replicate n { transform := true }
    freeEntities := []
    entityCount := n
    transformPool := List.replicate n (some {}) }

/-- The world after additionally destroying the (distinct, below n) ids of
pre, in order: destroyed slots are cleared, the free list is the destroy
order, and the live counter dropped accordingly. -/
def destroyedWorld (n : ℕ) (pre : List ℕ) : WasmWorld :=
  { entities := List.range n
    entityMasks := (List.range n).map (fun i => if i ∈ pre then {} else { transform := true })
    freeEntities := pre
    entityCount := n - pre.length
    transformPool := (List.range n).map (fun i =>
      if i ∈ pre then none else some ({} : WasmTransformComponent)) }

/-- Two-segment chain network: segment 0 from the origin to (100, 0),
segment 1 from (100, 0) to (200, 0), joined by a synthetic intersection at
their shared endpoint (100, 0). -/
def chainNet : WasmRoadNetwork :=
  let n0 := WasmRoadNetwork.new
  let p1 := n0.createRoadSegment 0 0 100 0
  let p2 := p1.2.createRoadSegment 100 0 200 0
  (p2.2.connectWithIntersection p1.1 true p2.1 false).2

/-- Two parallel segments with no intersections: a disconnected network. -/
def discNet : WasmRoadNetwork :=
  let n1 := (WasmRoadNetwork.new.createRoadSegment 0 0 100 0).2
  (n1.createRoadSegment 0 40 100 40).2

/-- A network whose only route from segment 0 to segment 1 passes through
segment 100: segments 0 and 1 on the x axis, 98 far-away dummy segments to
push the next id to 100, segment 100 bridging the gap, and two synthetic
intersections joining 0 to 100 and 100 to 1. -/
def c10net : WasmRoadNetwork :=
  let n0 := (WasmRoadNetwork.new.createRoadSegment 0 0 100 0).2
  let n1 := (n0.createRoadSegment 200 0 300 0).2
  let n2 := (List.range 98).foldl (fun n k =>
    (n.createRoadSegment (1000 + 10 * (k : ℚ)) 1000 (1000 + 10 * (k : ℚ) + 5) 1000).2) n1
  let n3 := (n2.createRoadSegment 100 0 200 0).2
  let n4 := (n3.connectWithIntersection 0 true 100 false).2
  (n4.connectWithIntersection 100 true 1 false).2

/-- Witness network for the intersection-connectivity claim: segment 0 with
a second lane added (2 lanes), segment 1 with two lanes added (3 lanes). -/
def c6net : WasmRoadNetwork :=
  let n0 := (WasmRoadNetwork.new.createRoadSegment 0 0 10 0).2
  let n1 := (n0.addLaneTo 0 (7 / 2) WasmLaneType.Driving).2
  let n2 := (n1.createRoadSegment 20 0 30 0).2
  let n3 := (n2.addLaneTo 1 (7 / 2) WasmLaneType.Driving).2
  (n3.addLaneTo 1 (7 / 2) WasmLaneType.Driving).2

/-- End-to-end bounds scenario before the tick: initialize with bounds 100
by 100, one vehicle at (95, 50) with velocity (50, 0), keep-in-bounds on. -/
def c5simBefore : WasmTrafficSimulation :=
  (((WasmTrafficSimulation.new.initializeSim 100 100).createVehicle 95 50 50 0).2).setKeepInBounds true

/-- End-to-end bounds scenario after one tick of dt = 1. -/
def c5simAfter : WasmTrafficSimulation := c5simBefore.update 1

/-- Failing input of the clear claim: initialize, one vehicle, clear. -/
def c1sim : WasmTrafficSimulation :=
  ((WasmTrafficSimulation.new.initializeSim 100 100).createVehicle 5 5 10 0).2.clear

/-- Witness world for collision symmetry: two vehicles with overlapping
collision circles (radius 2 each, centers one unit apart). -/
def c8sim : WasmTrafficSimulation :=
  ((WasmTrafficSimulation.new.createVehicle 0 0 3 0).2.createVehicle 1 0 0 4).2

/-- Witness segment with the 3-4-5 geometry, built by the network. -/
def c7seg : WasmRoadSegment :=
  ((WasmRoadNetwork.new.createRoadSegment 0 0 3 4).2.getRoadSegment 0).getD
    { id := 0, startPoint := {}, endPoint := {}, length := 0 }

/-- Facade with the two-segment chain network attached. -/
def c4sim : WasmTrafficSimulation :=
  WasmTrafficSimulation.new.setRoadNetwork (some chainNet)

/-- Facade with the disconnected network attached. -/
def c4discSim : WasmTrafficSimulation :=
  WasmTrafficSimulation.new.setRoadNetwork (some discNet)

/-- Collision-symmetry invariant over a list of queried entities: the
colliding-with lists are count-symmetric between any two distinct listed
entities, and any member of a listed colliding-with list is itself listed
with both colliding flags set. -/
def CollInv (entities : List ℕ) (w : WasmWorld) : Prop :=
  (∀ a ∈ entities, ∀ b ∈ entities, a ≠ b →
    ((w.getCollisionComp a).collidingWith.count b
      = (w.getCollisionComp b).collidingWith.count a)) ∧
  (∀ a ∈ entities, ∀ b ∈ (w.getCollisionComp a).collidingWith,
    b ∈ entities ∧ (w.getCollisionComp a).colliding = true ∧
      (w.getCollisionComp b).colliding = true)

/-- Reading a just-written list slot gives the written value when in range. -/
theorem listGetD_set_self {α : Type} (l : List α) (i : ℕ) (a d : α) (h : i < l.length) :
    (l.set i a).getD i d = a := by
  induction l generalizing i with
  | nil => simp at h
  | cons b t ih =>
    cases i with
    | zero => simp [List.getD]
    | succ n =>
      simp only [List.set]
      simpa [List.getD] using ih n (by simpa using h)

/-- Writing one list slot leaves every other slot unchanged. -/
theorem listGetD_set_ne {α : Type} (l : List α) (i j : ℕ) (a d : α) (h : i ≠ j) :
    (l.set i a).getD j d = l.getD j d := by
  induction l generalizing i j with
  | nil => simp
  | cons b t ih =>
    cases i with
    | zero => cases j with
      | zero => exact absurd rfl h
      | succ m => simp [List.getD]
    | succ n =>
      cases j with
      | zero => simp [List.getD]
      | succ m =>
        simp only [List.set]
        simpa [List.getD] using ih n m (by omega)

/-- Appending one element and reading at the old length gives that element. -/
theorem listGetD_append_len {α : Type} (l : List α) (a d : α) :
    (l ++ [a]).getD l.length d = a := by
  induction l with
  | nil => rfl
  | cons b t ih => simpa [List.getD] using ih

/-- Reading past the end of a list gives the default. -/
theorem listGetD_of_len_le {α : Type} (l : List α) (i : ℕ) (d : α) (h : l.length ≤ i) :
    l.getD i d = d := by
  induction l generalizing i with
  | nil => cases i <;> rfl
  | cons b t ih =>
    cases i with
    | zero => simp at h
    | succ n => simpa [List.getD] using ih n (by simpa using h)

/-- Reading a replicate-append list at the replicate length. -/
theorem getD_replicate_append {α : Type} (j : ℕ) (c d x : α) :
    (List.replicate j c ++ [x]).getD j d = x := by
  induction j with
  | zero => rfl
  | succ n ih => simpa [List.replicate_succ, List.getD] using ih

/-- Writing a replicate-append list at the replicate length. -/
theorem set_replicate_append {α : Type} (j : ℕ) (c a x : α) :
    (List.replicate j c ++ [x]).set j a = List.replicate j c ++ [a] := by
  induction j with
  | zero => rfl
  | succ n ih => simpa [List.replicate_succ, List.set] using ih

/-- A map over a range read at an in-range index gives the function value. -/
theorem getD_map_range {α : Type} (N i : ℕ) (f : ℕ → α) (d : α) (hi : i < N) :
    ((List.range N).map f).getD i d = f i := by
  rw [List.getD_eq_getElem _ _ (by simpa using hi)]
  simp

/-- Erasing a key does not change the binding of another key. -/
theorem alLookup_alErase_ne {κ ν : Type} [DecidableEq κ] (m : List (κ × ν)) (k b : κ)
    (h : k ≠ b) : alLookup (alErase m k) b = alLookup m b := by
  induction m with
  | nil => rfl
  | cons p t ih =>
    obtain ⟨pk, pv⟩ := p
    by_cases hpk : pk = k
    · rw [alErase, if_pos hpk, ih, alLookup, if_neg (fun hb => h (hpk ▸ hb))]
    · rw [alErase, if_neg hpk, alLookup, alLookup, ih]

/-- Insert-or-assign binds the assigned key to the assigned value. -/
theorem alLookup_alInsert_self {κ ν : Type} [DecidableEq κ] (m : List (κ × ν)) (k : κ) (v : ν) :
    alLookup (alInsert m k v) k = some v := by
  simp [alInsert, alLookup]

/-- Insert-or-assign does not change the binding of another key. -/
theorem alLookup_alInsert_ne {κ ν : Type} [DecidableEq κ] (m : List (κ × ν)) (k b : κ) (v : ν)
    (h : k ≠ b) : alLookup (alInsert m k v) b = alLookup m b := by
  rw [alInsert, alLookup, if_neg h, alLookup_alErase_ne m k b h]

/-- Erasure only keeps entries of the original list. -/
theorem mem_alErase {κ ν : Type} [DecidableEq κ] (m : List (κ × ν)) (k : κ) (p : κ × ν)
    (h : p ∈ alErase m k) : p ∈ m := by
  induction m with
  | nil => simp [alErase] at h
  | cons q t ih =>
    by_cases hq : q.1 = k
    · rw [alErase, if_pos hq] at h
      exact List.mem_cons_of_mem _ (ih h)
    · rw [alErase, if_neg hq] at h
      rcases List.mem_cons.1 h with h1 | h1
      · exact h1 ▸ List.mem_cons_self _ _
      · exact List.mem_cons_of_mem _ (ih h1)

/-- Every entry of an insert-or-assign is the new binding or an old entry. -/
theorem mem_alInsert {κ ν : Type} [DecidableEq κ] (m : List (κ × ν)) (k : κ) (v : ν) (p : κ × ν)
    (h : p ∈ alInsert m k v) : p = (k, v) ∨ p ∈ m := by
  rcases List.mem_cons.1 h with h1 | h1
  · exact Or.inl h1
  · exact Or.inr (mem_alErase m k p h1)

/-- A successful lookup is an entry of the list. -/
theorem alLookup_mem {κ ν : Type} [DecidableEq κ] (m : List (κ × ν)) (k : κ) (v : ν)
    (h : alLookup m k = some v) : (k, v) ∈ m := by
  induction m with
  | nil => simp [alLookup] at h
  | cons p t ih =>
    obtain ⟨pk, pv⟩ := p
    by_cases hp : pk = k
    · subst hp
      rw [alLookup, if_pos rfl] at h
      cases h
      exact List.mem_cons_self _ _
    · rw [alLookup, if_neg hp] at h
      exact List.mem_cons_of_mem _ (ih h)

/-- Erasing twice is erasing once. -/
theorem alErase_idem {κ ν : Type} [DecidableEq κ] (m : List (κ × ν)) (k : κ) :
    alErase (alErase m k) k = alErase m k := by
  induction m with
  | nil => rfl
  | cons p t ih =>
    by_cases hp : p.1 = k
    · rw [alErase, if_pos hp, ih]
    · rw [alErase, if_neg hp, alErase, if_neg hp, ih]

/-- Assigning a key twice keeps only the second assignment. -/
theorem alInsert_alInsert {κ ν : Type} [DecidableEq κ] (m : List (κ × ν)) (k : κ) (v1 v2 : ν) :
    alInsert (alInsert m k v1) k v2 = alInsert m k v2 := by
  unfold alInsert
  rw [alErase, if_pos rfl, alErase_idem]

/-- The empty mask has no bit set. -/
theorem maskAny_empty : WasmComponentMask.any {} = false := rfl

/-- The empty mask contains no nonempty mask. -/
theorem hasAll_empty_of_any (req : WasmComponentMask) (hreq : req.any = true) :
    WasmComponentMask.hasAll {} req = false := by
  obtain ⟨t, v, p, b, c, r, ts, s⟩ := req
  simp only [WasmComponentMask.any, Bool.or_eq_true] at hreq
  simp only [WasmComponentMask.hasAll]
  rcases hreq with ((((((ht | hv) | hp) | hb) | hc) | hr) | hts) | hs <;> simp_all

/-- A freshly created entity has the empty mask: a reused id has its mask
reset, a new id is appended with an empty mask. -/
theorem createEntity_mask_empty (w : WasmWorld)
    (hlen : w.entityMasks.length = w.entities.length) :
    ((w.createEntity).2.entityMasks.getD (w.createEntity).1 {}) = {} := by
  rcases hfree : w.freeEntities.getLast? with _ | id
  · simp only [WasmWorld.createEntity, hfree]
    rw [← hlen]
    exact listGetD_append_len _ _ _
  · simp only [WasmWorld.createEntity, hfree]
    by_cases hid : id < w.entityMasks.length
    · exact listGetD_set_self _ _ _ _ hid
    · rw [List.set_eq_of_length_le (by omega)]
      exact listGetD_of_len_le _ _ _ (by omega)

/-- C9: an identifier returned by createEntity with no component yet added
is not alive: entityExists is false, no query for a nonempty component set
returns it, and destroyEntity on it is a complete no-op (in particular the
id is not pushed on the free list and the live counter is not decremented).
The length hypothesis is the representation invariant that the mask array
and the id array of the store have grown together, which holds for every
state reachable through the store interface. -/
theorem C9_bare_entity_not_alive (w : WasmWorld)
    (hlen : w.entityMasks.length = w.entities.length)
    (req : WasmComponentMask) (hreq : req.any = true) :
    (w.createEntity).2.entityExists (w.createEntity).1 = false ∧
    (w.createEntity).1 ∉ (w.createEntity).2.getEntitiesWith req ∧
    (w.createEntity).2.destroyEntity (w.createEntity).1 = (w.createEntity).2 := by
  have hmask := createEntity_mask_empty w hlen
  have hex : (w.createEntity).2.entityExists (w.createEntity).1 = false := by
    rw [WasmWorld.entityExists, hmask, maskAny_empty, Bool.and_false]
  refine ⟨hex, ?_, ?_⟩
  · intro hmem
    rw [WasmWorld.getEntitiesWith] at hmem
    have := (List.mem_filter.1 hmem).2
    rw [hmask, hasAll_empty_of_any req hreq] at this
    exact absurd this (by simp)
  · rw [WasmWorld.destroyEntity, hex]
    simp

/-- Witness for C9 at the fresh world and the transform-only mask. -/
theorem C9_witness :
    (WasmWorld.new.entityMasks.length = WasmWorld.new.entities.length) ∧
    (({ transform := true } : WasmComponentMask).any = true) ∧
    ((WasmWorld.new.createEntity).2.entityExists (WasmWorld.new.createEntity).1 = false ∧
     (WasmWorld.new.createEntity).1
        ∉ (WasmWorld.new.createEntity).2.getEntitiesWith { transform := true } ∧
     (WasmWorld.new.createEntity).2.destroyEntity (WasmWorld.new.createEntity).1
        = (WasmWorld.new.createEntity).2) :=
  ⟨rfl, rfl, C9_bare_entity_not_alive WasmWorld.new rfl { transform := true } rfl⟩

/-- The world after n alive creations from the fresh world, by induction:
one creation step. -/
theorem uniform_createEntity (j : ℕ) :
    (uniformAliveWorld j).createEntity =
      (j, { uniformAliveWorld j with
              entities := List.range (j + 1)
              entityMasks := List.replicate j { transform := true } ++ [{}]
              entityCount := j + 1 }) := by
  simp only [WasmWorld.createEntity, uniformAliveWorld, List.getLast?]
  simp [List.range_succ]

/-- Attaching the transform to the just-created entity completes one alive
creation step. -/
theorem uniform_addTransform (j : ℕ) :
    ({ uniformAliveWorld j with
        entities := List.range (j + 1)
        entityMasks := List.replicate j { transform := true } ++ [{}]
        entityCount := j + 1 } : WasmWorld).addTransformComp j {} = uniformAliveWorld (j + 1) := by
  unfold WasmWorld.addTransformComp maskSet poolSet uniformAliveWorld
  simp only
  rw [getD_replicate_append, set_replicate_append]
  simp only [List.length_replicate, le_refl, if_pos, Nat.add_sub_cancel_left]
  have h1 : List.replicate 1 (none : Option WasmTransformComponent) = [none] := rfl
  rw [h1, set_replicate_append]
  rw [List.replicate_succ' j, List.replicate_succ' j]

/-- Creating n alive entities from the uniform world of j entities yields
the ids j to j + n - 1 and the uniform world of j + n entities. -/
theorem createNAlive_uniform (n : ℕ) : ∀ j,
    createNAlive n (uniformAliveWorld j) = (List.range' j n, uniformAliveWorld (j + n)) := by
  induction n with
  | zero => intro j; simp [createNAlive, List.range']
  | succ n ih =>
    intro j
    rw [createNAlive, uniform_createEntity j]
    simp only
    rw [uniform_addTransform j, ih (j + 1)]
    have harith : j + 1 + n = j + (n + 1) := by omega
    rw [harith, List.range'_succ]

/-- The uniform alive world is the destroyed world with nothing destroyed. -/
theorem uniform_eq_destroyed (N : ℕ) : uniformAliveWorld N = destroyedWorld N [] := by
  unfold uniformAliveWorld destroyedWorld
  simp [List.map_const']

/-- Destroying one alive id of the destroyed world records it. -/
theorem destroyedWorld_destroy (N : ℕ) (pre : List ℕ) (d : ℕ) (hd : d < N) (hdpre : d ∉ pre) :
    (destroyedWorld N pre).destroyEntity d = destroyedWorld N (pre ++ [d]) := by
  have hmask : ((destroyedWorld N pre).entityMasks.getD d {}) =
      ({ transform := true } : WasmComponentMask) := by
    unfold destroyedWorld
    simp only
    rw [getD_map_range N d _ _ hd]
    simp [hdpre]
  have hex : (destroyedWorld N pre).entityExists d = true := by
    rw [WasmWorld.entityExists, hmask]
    unfold destroyedWorld
    simp [hd, WasmComponentMask.any]
  rw [WasmWorld.destroyEntity, hex, if_pos rfl, hmask]
  unfold destroyedWorld
  dsimp only
  simp only [eq_self_iff_true, if_true, Bool.false_eq_true, if_false]
  congr 1
  · apply List.ext_getElem (by simp)
    intro i h1 h2
    rw [List.getElem_set]
    by_cases hi : d = i
    · subst hi
      have : d ∈ pre ++ [d] := by simp
      simp only [if_pos rfl, List.getElem_map, List.getElem_range, this, if_pos]
    · rw [if_neg hi]
      simp only [List.getElem_map, List.getElem_range]
      have hdi : ¬ i = d := fun h => hi h.symm
      by_cases hip : i ∈ pre
      · simp [hip]
      · simp [hip, hdi]
  · simp only [List.length_append, List.length_cons, List.length_nil]
    omega
  · apply List.ext_getElem (by simp)
    intro i h1 h2
    rw [List.getElem_set]
    by_cases hi : d = i
    · subst hi
      have : d ∈ pre ++ [d] := by simp
      simp only [if_pos rfl, List.getElem_map, List.getElem_range, this, if_pos]
    · rw [if_neg hi]
      simp only [List.getElem_map, List.getElem_range]
      have hdi : ¬ i = d := fun h => hi h.symm
      by_cases hip : i ∈ pre
      · simp [hip]
      · simp [hip, hdi]

/-- Folding destruction over distinct alive ids records them in order. -/
theorem destroy_fold (N : ℕ) : ∀ (suf pre : List ℕ), (pre ++ suf).Perm (List.range N) →
    suf.foldl WasmWorld.destroyEntity (destroyedWorld N pre) = destroyedWorld N (pre ++ suf) := by
  intro suf
  induction suf with
  | nil => intro pre _; simp
  | cons d t ih =>
    intro pre hperm
    have hnodup : (pre ++ d :: t).Nodup := hperm.nodup_iff.2 (List.nodup_range N)
    have hd : d < N := by
      have : d ∈ List.range N := hperm.mem_iff.1 (by simp)
      simpa using this
    have hdpre : d ∉ pre := by
      rcases List.nodup_append.1 hnodup with ⟨-, -, hdisj⟩
      intro hmem
      exact hdisj hmem (by simp)
    rw [List.foldl_cons, destroyedWorld_destroy N pre d hd hdpre]
    have hre : (pre ++ [d]) ++ t = pre ++ d :: t := by simp
    have := ih (pre ++ [d]) (by rw [hre]; exact hperm)
    rw [this, hre]

/-- After destroying every id, no id of the first phase is alive. -/
theorem destroyed_not_exists (N : ℕ) (ds : List ℕ) (hperm : ds.Perm (List.range N)) :
    ∀ id, id ∈ List.range N → (destroyedWorld N ds).entityExists id = false := by
  intro id hid
  have hidN : id < N := by simpa using hid
  have hmem : id ∈ ds := hperm.mem_iff.2 hid
  rw [WasmWorld.entityExists]
  have : ((destroyedWorld N ds).entityMasks.getD id {}) = {} := by
    unfold destroyedWorld
    dsimp only
    rw [getD_map_range N id _ _ hidN]
    simp [hmem]
  rw [this, maskAny_empty, Bool.and_false]

/-- Bare creations pop the free list from the back. -/
theorem createNBare_pops (n : ℕ) : ∀ (w : WasmWorld), w.freeEntities.length = n →
    (createNBare n w).1 = w.freeEntities.reverse := by
  induction n with
  | zero =>
    intro w h
    rw [List.length_eq_zero] at h
    rw [createNBare, h]
    rfl
  | succ n ih =>
    intro w h
    rcases w.freeEntities.eq_nil_or_concat' with hnil | ⟨l, a, hfe⟩
    · rw [hnil] at h; simp at h
    · have hcr : w.createEntity = (a, { w with freeEntities := l, entityMasks := w.entityMasks.set a {}, entityCount := w.entityCount + 1 }) := by
        rw [WasmWorld.createEntity, hfe, List.getLast?_concat]
        simp
      rw [createNBare, hcr]
      simp only
      have hlen2 : (({ w with freeEntities := l, entityMasks := w.entityMasks.set a {}, entityCount := w.entityCount + 1 } : WasmWorld)).freeEntities.length = n := by
        simp only
        rw [hfe, List.length_append] at h
        simpa using h
      rw [ih _ hlen2]
      simp only
      rw [hfe, List.reverse_append]
      simp

/-- C2 counterexample: with the store operations exactly as written in the
claim (bare creations), recycling fails.  One bare createEntity on the
fresh store returns id 0; destroyEntity on it is a no-op because an entity
without components is not alive, so the second creation phase returns the
fresh id 1, which is not the identifier set of the first phase. -/
theorem C2_counterexample :
    ((((WasmWorld.new.createEntity).2.destroyEntity (WasmWorld.new.createEntity).1).createEntity).1)
        ≠ (WasmWorld.new.createEntity).1 ∧
    ¬ ([(((WasmWorld.new.createEntity).2.destroyEntity
          (WasmWorld.new.createEntity).1).createEntity).1].Perm [(WasmWorld.new.createEntity).1]) := by
  constructor
  · with_unfolding_all decide
  · with_unfolding_all decide

/-- C2 as amended: when each created entity is made alive by attaching a
component (the store counts an entity as alive only from its first
component on), creating N, destroying all of them in any order, and
creating N again yields a permutation of the same identifier set, and
between the two phases every one of those identifiers fails entityExists. -/
theorem C2_recycling_amended (N : ℕ) (ds : List ℕ) (hperm : ds.Perm (List.range N)) :
    (createNAlive N WasmWorld.new).1 = List.range N ∧
    (∀ id, id ∈ (createNAlive N WasmWorld.new).1 →
      (ds.foldl WasmWorld.destroyEntity (createNAlive N WasmWorld.new).2).entityExists id = false) ∧
    ((createNBare N (ds.foldl WasmWorld.destroyEntity (createNAlive N WasmWorld.new).2)).1).Perm
      ((createNAlive N WasmWorld.new).1) := by
  have hnew : WasmWorld.new = uniformAliveWorld 0 := rfl
  have h1 : createNAlive N WasmWorld.new = (List.range N, uniformAliveWorld N) := by
    rw [hnew, createNAlive_uniform N 0]
    rw [List.range_eq_range']
    simp
  have h2 : ds.foldl WasmWorld.destroyEntity (createNAlive N WasmWorld.new).2 = destroyedWorld N ds := by
    rw [h1]
    simp only
    rw [uniform_eq_destroyed N]
    have := destroy_fold N ds [] (by simpa using hperm)
    simpa using this
  refine ⟨by rw [h1], ?_, ?_⟩
  · intro id hid
    rw [h2]
    rw [h1] at hid
    exact destroyed_not_exists N ds hperm id hid
  · rw [h2, h1]
    simp only
    have hfree : (destroyedWorld N ds).freeEntities = ds := rfl
    have hlen : (destroyedWorld N ds).freeEntities.length = N := by
      rw [hfree, hperm.length_eq, List.length_range]
    rw [createNBare_pops N _ hlen, hfree]
    exact (List.reverse_perm ds).trans hperm

/-- Witness for the amended recycling claim at N = 2, destroying in the
order 1 then 0. -/
theorem C2_witness :
    (([1, 0] : List ℕ).Perm (List.range 2)) ∧
    ((createNAlive 2 WasmWorld.new).1 = List.range 2 ∧
     (∀ id, id ∈ (createNAlive 2 WasmWorld.new).1 →
       (([1, 0] : List ℕ).foldl WasmWorld.destroyEntity
           (createNAlive 2 WasmWorld.new).2).entityExists id = false) ∧
     ((createNBare 2 (([1, 0] : List ℕ).foldl WasmWorld.destroyEntity
         (createNAlive 2 WasmWorld.new).2)).1).Perm ((createNAlive 2 WasmWorld.new).1)) :=
  ⟨by decide, C2_recycling_amended 2 [1, 0] (by decide)⟩

/-- C1, shown at the failing input recorded in c1sim (initialize the bounds
to 100 by 100, create one vehicle, clear): the clear loop runs its id
against the live-entity counter, which each destruction decrements, so it
stops after destroying only the bounds entity; the vehicle entity 1 is
still alive, the vehicle counter nevertheless reports zero because it scans
ids below the same shrunken counter, the next update still moves the
surviving vehicle, and no bounds component remains, so the bounds are not
re-applied. -/
theorem C1_clear_bug :
    c1sim.world.entityExists 1 = true ∧
    c1sim.getVehicleCount = 0 ∧
    (c1sim.update 1).getVehiclePosition 1 = { x := 15, y := 5 } ∧
    ((List.range c1sim.world.entities.length).filter
      (fun id => c1sim.world.hasBoundsComp id)) = [] := by
  refine ⟨?_, ?_, ?_, ?_⟩ <;> with_unfolding_all rfl

/-- C3, shown at the failing input: setupSystems registers movement,
bounds, collision and traffic-signal; setRoadNetwork appends a
path-following closure at the end of the list, so after one attachment the
tick order is movement, bounds, collision, signal-timing, path-following
(not the claimed movement, bounds, path-following, collision,
signal-timing), and a second setRoadNetwork appends another copy, making
the path-following system execute twice per update. -/
theorem C3_system_order_bug :
    (WasmTrafficSimulation.new.setRoadNetwork (some WasmRoadNetwork.new)).world.systems =
      [SystemTag.movement, SystemTag.bounds, SystemTag.collision, SystemTag.trafficSignal,
       SystemTag.pathFollowing (some WasmRoadNetwork.new)] ∧
    ((WasmTrafficSimulation.new.setRoadNetwork (some WasmRoadNetwork.new)).setRoadNetwork
        (some WasmRoadNetwork.new)).world.systems =
      [SystemTag.movement, SystemTag.bounds, SystemTag.collision, SystemTag.trafficSignal,
       SystemTag.pathFollowing (some WasmRoadNetwork.new),
       SystemTag.pathFollowing (some WasmRoadNetwork.new)] :=
  ⟨rfl, rfl⟩

/-- Writing the transform of one entity does not change another one. -/
theorem setTransform_get_ne (w : WasmWorld) (i j : ℕ) (c : WasmTransformComponent) (h : i ≠ j) :
    (w.setTransformComp i c).getTransformComp j = w.getTransformComp j := by
  unfold WasmWorld.setTransformComp WasmWorld.getTransformComp poolGet
  simp only
  rw [listGetD_set_ne _ _ _ _ _ h]

/-- A per-entity transform rewrite fold leaves absent ids unchanged. -/
theorem foldl_transform_notmem (g : WasmTransformComponent → WasmTransformComponent)
    (l : List ℕ) (w : WasmWorld) (e : ℕ) (he : e ∉ l) :
    ((l.foldl (fun wa id => wa.setTransformComp id (g (wa.getTransformComp id))) w).getTransformComp e)
      = w.getTransformComp e := by
  induction l generalizing w with
  | nil => rfl
  | cons a t ih =>
    rw [List.foldl_cons]
    rw [ih _ (fun h => he (List.mem_cons_of_mem _ h))]
    exact setTransform_get_ne _ _ _ _ (fun h => he (h ▸ List.mem_cons_self _ _))

/-- A per-entity transform rewrite fold over distinct in-range ids applies
the rewrite exactly once to each id. -/
theorem foldl_transform_get (g : WasmTransformComponent → WasmTransformComponent)
    (l : List ℕ) (hnd : l.Nodup) (w : WasmWorld)
    (hlen : ∀ x ∈ l, x < w.transformPool.length) (e : ℕ) (he : e ∈ l) :
    ((l.foldl (fun wa id => wa.setTransformComp id (g (wa.getTransformComp id))) w).getTransformComp e)
      = g (w.getTransformComp e) := by
  induction l generalizing w with
  | nil => cases he
  | cons a t ih =>
    rw [List.foldl_cons]
    rcases List.mem_cons.1 he with rfl | het
    · have hanot : e ∉ t := (List.nodup_cons.1 hnd).1
      rw [foldl_transform_notmem g t _ e hanot]
      unfold WasmWorld.setTransformComp WasmWorld.getTransformComp poolGet
      simp only
      rw [listGetD_set_self _ _ _ _ (hlen e (List.mem_cons_self _ _))]
      rfl
    · have hne : a ≠ e := fun h => (List.nodup_cons.1 hnd).1 (h ▸ het)
      rw [ih (List.nodup_cons.1 hnd).2 _ ?_ het]
      · rw [setTransform_get_ne _ _ _ _ hne]
      · intro x hx
        unfold WasmWorld.setTransformComp
        simp only [List.length_set]
        exact hlen x (List.mem_cons_of_mem _ hx)

/-- Entity queries return distinct ids. -/
theorem getEntitiesWith_nodup (w : WasmWorld) (req : WasmComponentMask) :
    (w.getEntitiesWith req).Nodup :=
  (List.nodup_range _).filter _

/-- The loop body of the bounds system clamps each axis to the rectangle and
negates and halves the velocity on the axes that clamp. -/
theorem boundsClampVehicle_fields (gb : WasmBoundsComponent) (t : WasmTransformComponent)
    (hW : 0 ≤ gb.width) (hH : 0 ≤ gb.height) :
    (boundsClampVehicle gb t).position.x = max 0 (min t.position.x gb.width) ∧
    (boundsClampVehicle gb t).position.y = max 0 (min t.position.y gb.height) ∧
    (boundsClampVehicle gb t).velocity.x
      = (if t.position.x < 0 ∨ t.position.x > gb.width
         then -t.velocity.x * (1 / 2) else t.velocity.x) ∧
    (boundsClampVehicle gb t).velocity.y
      = (if t.position.y < 0 ∨ t.position.y > gb.height
         then -t.velocity.y * (1 / 2) else t.velocity.y) := by
  unfold boundsClampVehicle
  refine ⟨?_, ?_, ?_, ?_⟩ <;>
    · simp only [max_def, min_def]
      split_ifs <;> simp_all <;> try linarith
      all_goals (rcases ‹_ ∨ _› with h1 | h1 <;> linarith)

/-- With a keep-in-bounds global bounds component, the bounds system maps
each transform-vehicle entity through the clamp body exactly once. -/
theorem boundsSystem_getTransform (w : WasmWorld) (dt : ℚ) (gb : WasmBoundsComponent)
    (hgb : findGlobalBounds w = some gb) (hkeep : gb.keepInBounds = true)
    (hlen : ∀ x ∈ w.getEntitiesWith { transform := true, vehicle := true },
      x < w.transformPool.length)
    (e : ℕ) (he : e ∈ w.getEntitiesWith { transform := true, vehicle := true }) :
    (boundsSystem w dt).getTransformComp e
      = boundsClampVehicle gb (w.getTransformComp e) := by
  rw [boundsSystem, hgb]
  simp only [hkeep, Bool.not_true, Bool.false_eq_true, if_false]
  exact foldl_transform_get (boundsClampVehicle gb) _ (getEntitiesWith_nodup w _) w hlen e he

/-- C5: the end-to-end bounds scenario (bounds 100 by 100, vehicle at
(95, 50) with velocity (50, 0), keep-in-bounds on, one tick of dt = 1)
leaves the vehicle at x = 100 with x velocity -25; and in general, under a
keep-in-bounds global bounds component with nonnegative extents, the bounds
system clamps each position axis of each transform-vehicle entity
independently into the rectangle and, exactly when an axis clamps, negates
and halves the corresponding velocity component. -/
theorem C5_bounds_clamp_and_bounce :
    (c5simAfter.getVehiclePosition 1 = { x := 100, y := 50 } ∧
     c5simAfter.getVehicleVelocity 1 = { x := -25, y := 0 }) ∧
    (∀ (w : WasmWorld) (dt : ℚ) (gb : WasmBoundsComponent),
      findGlobalBounds w = some gb → gb.keepInBounds = true →
      0 ≤ gb.width → 0 ≤ gb.height →
      (∀ x ∈ w.getEntitiesWith { transform := true, vehicle := true },
        x < w.transformPool.length) →
      ∀ e ∈ w.getEntitiesWith { transform := true, vehicle := true },
        ((boundsSystem w dt).getTransformComp e).position.x
            = max 0 (min ((w.getTransformComp e).position.x) gb.width) ∧
        ((boundsSystem w dt).getTransformComp e).position.y
            = max 0 (min ((w.getTransformComp e).position.y) gb.height) ∧
        ((boundsSystem w dt).getTransformComp e).velocity.x
            = (if (w.getTransformComp e).position.x < 0
                  ∨ (w.getTransformComp e).position.x > gb.width
               then -((w.getTransformComp e).velocity.x) * (1 / 2)
               else (w.getTransformComp e).velocity.x) ∧
        ((boundsSystem w dt).getTransformComp e).velocity.y
            = (if (w.getTransformComp e).position.y < 0
                  ∨ (w.getTransformComp e).position.y > gb.height
               then -((w.getTransformComp e).velocity.y) * (1 / 2)
               else (w.getTransformComp e).velocity.y)) := by
  constructor
  · constructor <;> with_unfolding_all rfl
  · intro w dt gb hgb hkeep hW hH hlen e he
    rw [boundsSystem_getTransform w dt gb hgb hkeep hlen e he]
    exact boundsClampVehicle_fields gb (w.getTransformComp e) hW hH

/-- Witness for the general bounds conjunct at the scenario world and the
vehicle entity 1. -/
theorem C5_witness :
    ((boundsSystem c5simBefore.world 1).getTransformComp 1).position.x
        = max 0 (min ((c5simBefore.world.getTransformComp 1).position.x) 100) ∧
    ((boundsSystem c5simBefore.world 1).getTransformComp 1).position.y
        = max 0 (min ((c5simBefore.world.getTransformComp 1).position.y) 100) ∧
    ((boundsSystem c5simBefore.world 1).getTransformComp 1).velocity.x
        = (if (c5simBefore.world.getTransformComp 1).position.x < 0
              ∨ (c5simBefore.world.getTransformComp 1).position.x > 100
           then -((c5simBefore.world.getTransformComp 1).velocity.x) * (1 / 2)
           else (c5simBefore.world.getTransformComp 1).velocity.x) ∧
    ((boundsSystem c5simBefore.world 1).getTransformComp 1).velocity.y
        = (if (c5simBefore.world.getTransformComp 1).position.y < 0
              ∨ (c5simBefore.world.getTransformComp 1).position.y > 100
           then -((c5simBefore.world.getTransformComp 1).velocity.y) * (1 / 2)
           else (c5simBefore.world.getTransformComp 1).velocity.y) :=
  C5_bounds_clamp_and_bounce.2 c5simBefore.world 1
    { width := 100, height := 100, keepInBounds := true }
    (by with_unfolding_all rfl) rfl
    (by norm_num) (by norm_num)
    (by with_unfolding_all decide) 1 (by with_unfolding_all decide)

/-- C7: for every road segment of positive length, getPointAtDistance at 0
is the start point, at the full length it is the end point, and it is
monotone in the distance along the segment direction (the displacement
between the points at any two clamped distances has nonnegative dot
product with the direction vector), the distance being clamped to the
interval from 0 to the length. -/
theorem C7_point_at_distance (seg : WasmRoadSegment) (h : 0 < seg.length) :
    seg.getPointAtDistance 0 = seg.startPoint ∧
    seg.getPointAtDistance seg.length = seg.endPoint ∧
    ∀ d1 d2 : ℚ, d1 ≤ d2 →
      0 ≤ ((seg.getPointAtDistance d2).x - (seg.getPointAtDistance d1).x) *
            (seg.endPoint.x - seg.startPoint.x) +
          ((seg.getPointAtDistance d2).y - (seg.getPointAtDistance d1).y) *
            (seg.endPoint.y - seg.startPoint.y) := by
  obtain ⟨i, ⟨sx, sy⟩, ⟨ex, ey⟩, L, lanes, si, ei⟩ := seg
  simp only [WasmRoadSegment.getPointAtDistance] at h ⊢
  refine ⟨?_, ?_, ?_⟩
  · have h0 : max 0 (min (0 : ℚ) L) = 0 := by rw [min_eq_left h.le, max_self]
    rw [h0]
    simp
  · have hL : max 0 (min L L) = L := by rw [min_self, max_eq_right h.le]
    rw [hL, div_self (ne_of_gt h)]
    simp only [mul_one, WasmVector2D.mk.injEq]
    constructor <;> ring
  · intro d1 d2 h12
    have ht : max 0 (min d1 L) / L ≤ max 0 (min d2 L) / L := by
      apply (div_le_div_right h).2
      exact max_le_max le_rfl (min_le_min h12 le_rfl)
    set t1 := max 0 (min d1 L) / L
    set t2 := max 0 (min d2 L) / L
    nlinarith [sq_nonneg (ex - sx), sq_nonneg (ey - sy), sub_nonneg.2 ht]

/-- Witness for the interpolation claim at the 3-4-5 segment, at the
concrete distances 1 and 2. -/
theorem C7_witness :
    c7seg.getPointAtDistance 0 = c7seg.startPoint ∧
    c7seg.getPointAtDistance c7seg.length = c7seg.endPoint ∧
    0 ≤ ((c7seg.getPointAtDistance 2).x - (c7seg.getPointAtDistance 1).x) *
          (c7seg.endPoint.x - c7seg.startPoint.x) +
        ((c7seg.getPointAtDistance 2).y - (c7seg.getPointAtDistance 1).y) *
          (c7seg.endPoint.y - c7seg.startPoint.y) := by
  have h := C7_point_at_distance c7seg (by with_unfolding_all decide)
  exact ⟨h.1, h.2.1, h.2.2 1 2 (by norm_num)⟩

/-- connectRoad records the road on the intersection and the intersection on
the chosen end of the segment, leaving other segments and the id counter
unchanged. -/
theorem connectRoad_spec (net : WasmRoadNetwork) (iid rid : ℕ) (isStart : Bool)
    (inter : WasmIntersection) (seg : WasmRoadSegment)
    (hi : net.getIntersection iid = some inter) (hs : net.getRoadSegment rid = some seg) :
    (net.connectRoad iid rid isStart).getIntersection iid
        = some { inter with connectedRoads := inter.connectedRoads ++ [rid] } ∧
    (net.connectRoad iid rid isStart).getRoadSegment rid
        = some (if isStart then { seg with startIntersection := some iid }
                else { seg with endIntersection := some iid }) ∧
    (∀ r, r ≠ rid → (net.connectRoad iid rid isStart).getRoadSegment r = net.getRoadSegment r) ∧
    (net.connectRoad iid rid isStart).nextIntersectionId = net.nextIntersectionId := by
  rw [WasmRoadNetwork.getIntersection] at hi
  rw [WasmRoadNetwork.getRoadSegment] at hs
  rw [WasmRoadNetwork.connectRoad, hi, hs]
  refine ⟨?_, ?_, ?_, rfl⟩
  · exact alLookup_alInsert_self _ _ _
  · exact alLookup_alInsert_self _ _ _
  · intro r hr
    exact alLookup_alInsert_ne _ _ _ _ (fun h => hr h.symm)

/-- Network-level defineConnection applies the intersection-level one and
does not touch the segment store. -/
theorem defineConnection_net_spec (net : WasmRoadNetwork) (iid a b c d : ℕ)
    (inter : WasmIntersection) (hi : net.getIntersection iid = some inter) :
    (net.defineConnection iid a b c d).getIntersection iid
        = some (inter.defineConnection a b c d) ∧
    (net.defineConnection iid a b c d).roadSegments = net.roadSegments := by
  rw [WasmRoadNetwork.getIntersection] at hi
  rw [WasmRoadNetwork.defineConnection, hi]
  exact ⟨alLookup_alInsert_self _ _ _, rfl⟩

/-- The inner lane fold of connectWithIntersection tracked into the
intersection record. -/
theorem fold1_spec (iid A B a : ℕ) (l2 : List ℕ) : ∀ (net0 : WasmRoadNetwork) (inter0 : WasmIntersection),
    net0.getIntersection iid = some inter0 →
    ((l2.foldl (fun nb lane2 => (nb.defineConnection iid A a B lane2).defineConnection iid B lane2 A a) net0).getIntersection iid
      = some (l2.foldl (fun ib lane2 => (ib.defineConnection A a B lane2).defineConnection B lane2 A a) inter0))
    ∧ (l2.foldl (fun nb lane2 => (nb.defineConnection iid A a B lane2).defineConnection iid B lane2 A a) net0).roadSegments = net0.roadSegments := by
  induction l2 with
  | nil => intro net0 inter0 h; exact ⟨h, rfl⟩
  | cons b t ih =>
    intro net0 inter0 h
    have s1 := defineConnection_net_spec net0 iid A a B b inter0 h
    have s2 := defineConnection_net_spec _ iid B b A a _ s1.1
    rw [List.foldl_cons]
    have hres := ih _ _ s2.1
    refine ⟨hres.1, ?_⟩
    rw [hres.2, s2.2, s1.2]

/-- The outer lane fold of connectWithIntersection tracked into the
intersection record. -/
theorem fold2_spec (iid A B : ℕ) (l1 l2 : List ℕ) : ∀ (net0 : WasmRoadNetwork) (inter0 : WasmIntersection),
    net0.getIntersection iid = some inter0 →
    ((l1.foldl (fun na lane1 => l2.foldl (fun nb lane2 => (nb.defineConnection iid A lane1 B lane2).defineConnection iid B lane2 A lane1) na) net0).getIntersection iid
      = some (l1.foldl (fun ia lane1 => l2.foldl (fun ib lane2 => (ib.defineConnection A lane1 B lane2).defineConnection B lane2 A lane1) ia) inter0))
    ∧ (l1.foldl (fun na lane1 => l2.foldl (fun nb lane2 => (nb.defineConnection iid A lane1 B lane2).defineConnection iid B lane2 A lane1) na) net0).roadSegments = net0.roadSegments := by
  induction l1 with
  | nil => intro net0 inter0 h; exact ⟨h, rfl⟩
  | cons a t ih =>
    intro net0 inter0 h
    rw [List.foldl_cons, List.foldl_cons]
    have hres := fold1_spec iid A B a l2 net0 inter0 h
    have := ih _ _ hres.1
    exact ⟨this.1, by rw [this.2, hres.2]⟩

/-- C6: connecting two existing segments with 2 and 3 lanes through a new
intersection returns the next intersection id, creates the intersection at
the midpoint of the two chosen endpoints, attaches both segments to it in
order, records the connected endpoint on each segment, and fills the
connection table with exactly 6 forward entries (lanes of A to lanes of B)
and exactly 6 reverse entries (lanes of B to lanes of A), the full lane
cross-product in both directions. -/
theorem C6_intersection_cross_product (net : WasmRoadNetwork) (A B : ℕ) (endA endB : Bool)
    (segA segB : WasmRoadSegment)
    (hA : net.getRoadSegment A = some segA) (hB : net.getRoadSegment B = some segB)
    (hAB : A ≠ B) (hLA : segA.getLaneCount = 2) (hLB : segB.getLaneCount = 3) :
    (net.connectWithIntersection A endA B endB).1 = net.nextIntersectionId ∧
    (∃ inter : WasmIntersection,
      (net.connectWithIntersection A endA B endB).2.getIntersection net.nextIntersectionId
          = some inter ∧
      inter.position = { x := ((if endA then segA.endPoint else segA.startPoint).x
                                + (if endB then segB.endPoint else segB.startPoint).x) / 2,
                         y := ((if endA then segA.endPoint else segA.startPoint).y
                                + (if endB then segB.endPoint else segB.startPoint).y) / 2 } ∧
      inter.connectedRoads = [A, B] ∧
      connDirCount inter A B = 6 ∧
      connDirCount inter B A = 6) ∧
    (∃ segA2, (net.connectWithIntersection A endA B endB).2.getRoadSegment A = some segA2 ∧
      (if endA then segA2.endIntersection else segA2.startIntersection)
        = some net.nextIntersectionId) ∧
    (∃ segB2, (net.connectWithIntersection A endA B endB).2.getRoadSegment B = some segB2 ∧
      (if endB then segB2.endIntersection else segB2.startIntersection)
        = some net.nextIntersectionId) := by
  have hfst : (net.connectWithIntersection A endA B endB).1 = net.nextIntersectionId := by
    rw [WasmRoadNetwork.connectWithIntersection, hA, hB]
    rfl
  have hsnd : (net.connectWithIntersection A endA B endB).2 =
      (List.range segA.getLaneCount).foldl (fun na lane1 =>
        (List.range segB.getLaneCount).foldl (fun nb lane2 =>
          (nb.defineConnection net.nextIntersectionId A lane1 B lane2).defineConnection
            net.nextIntersectionId B lane2 A lane1) na)
        (((net.createIntersection
              (((if endA then segA.endPoint else segA.startPoint).x
                + (if endB then segB.endPoint else segB.startPoint).x) / 2)
              (((if endA then segA.endPoint else segA.startPoint).y
                + (if endB then segB.endPoint else segB.startPoint).y) / 2)).2.connectRoad
            net.nextIntersectionId A (!endA)).connectRoad net.nextIntersectionId B (!endB)) := by
    rw [WasmRoadNetwork.connectWithIntersection, hA, hB]
    rfl
  rw [hLA, hLB] at hsnd
  have s0i : (net.createIntersection
        (((if endA then segA.endPoint else segA.startPoint).x
          + (if endB then segB.endPoint else segB.startPoint).x) / 2)
        (((if endA then segA.endPoint else segA.startPoint).y
          + (if endB then segB.endPoint else segB.startPoint).y) / 2)).2.getIntersection
        net.nextIntersectionId
      = some { id := net.nextIntersectionId,
               position := { x := (((if endA then segA.endPoint else segA.startPoint).x
                                    + (if endB then segB.endPoint else segB.startPoint).x) / 2),
                             y := (((if endA then segA.endPoint else segA.startPoint).y
                                    + (if endB then segB.endPoint else segB.startPoint).y) / 2) },
               connectedRoads := [], connections := [] } :=
    alLookup_alInsert_self _ _ _
  have s0A : (net.createIntersection
        (((if endA then segA.endPoint else segA.startPoint).x
          + (if endB then segB.endPoint else segB.startPoint).x) / 2)
        (((if endA then segA.endPoint else segA.startPoint).y
          + (if endB then segB.endPoint else segB.startPoint).y) / 2)).2.getRoadSegment A
      = some segA := hA
  have s1 := connectRoad_spec _ net.nextIntersectionId A (!endA) _ _ s0i s0A
  have s1B := (s1.2.2.1 B (Ne.symm hAB)).trans hB
  have s2 := connectRoad_spec _ net.nextIntersectionId B (!endB) _ _ s1.1 s1B
  have s2lit : ((((net.createIntersection
        (((if endA then segA.endPoint else segA.startPoint).x
          + (if endB then segB.endPoint else segB.startPoint).x) / 2)
        (((if endA then segA.endPoint else segA.startPoint).y
          + (if endB then segB.endPoint else segB.startPoint).y) / 2)).2.connectRoad
          net.nextIntersectionId A (!endA)).connectRoad
          net.nextIntersectionId B (!endB)).getIntersection net.nextIntersectionId)
      = some { id := net.nextIntersectionId,
               position := { x := (((if endA then segA.endPoint else segA.startPoint).x
                                    + (if endB then segB.endPoint else segB.startPoint).x) / 2),
                             y := (((if endA then segA.endPoint else segA.startPoint).y
                                    + (if endB then segB.endPoint else segB.startPoint).y) / 2) },
               connectedRoads := [A, B], connections := [] } := s2.1
  have s3 := fold2_spec net.nextIntersectionId A B (List.range 2) (List.range 3) _ _ s2lit
  refine ⟨hfst, ⟨(List.range 2).foldl (fun ia lane1 =>
      (List.range 3).foldl (fun ib lane2 =>
        (ib.defineConnection A lane1 B lane2).defineConnection B lane2 A lane1) ia)
      { id := net.nextIntersectionId,
        position := { x := (((if endA then segA.endPoint else segA.startPoint).x
                             + (if endB then segB.endPoint else segB.startPoint).x) / 2),
                      y := (((if endA then segA.endPoint else segA.startPoint).y
                             + (if endB then segB.endPoint else segB.startPoint).y) / 2) },
        connectedRoads := [A, B], connections := [] }, ?_, ?_, ?_, ?_, ?_⟩, ?_, ?_⟩
  · rw [hsnd]
    exact s3.1
  · -- position
    simp [show List.range 2 = [0, 1] from rfl, show List.range 3 = [0, 1, 2] from rfl,
      WasmIntersection.defineConnection]
  · -- connected roads
    simp [show List.range 2 = [0, 1] from rfl, show List.range 3 = [0, 1, 2] from rfl,
      WasmIntersection.defineConnection]
  · -- forward count
    simp only [show List.range 2 = [0, 1] from rfl, show List.range 3 = [0, 1, 2] from rfl,
      List.foldl_cons, List.foldl_nil]
    simp [connDirCount, WasmIntersection.defineConnection, alLookup, alInsert, alErase,
      hAB, Ne.symm hAB, Prod.mk.injEq]
  · -- reverse count
    simp only [show List.range 2 = [0, 1] from rfl, show List.range 3 = [0, 1, 2] from rfl,
      List.foldl_cons, List.foldl_nil]
    simp [connDirCount, WasmIntersection.defineConnection, alLookup, alInsert, alErase,
      hAB, Ne.symm hAB, Prod.mk.injEq]
  · -- segment A back-reference
    refine ⟨if endA then { segA with endIntersection := some net.nextIntersectionId }
            else { segA with startIntersection := some net.nextIntersectionId }, ?_, ?_⟩
    · rw [hsnd]
      have h4A : ∀ (nfin : WasmRoadNetwork) (nref : WasmRoadNetwork), nfin.roadSegments
          = nref.roadSegments → nfin.getRoadSegment A = nref.getRoadSegment A := by
        intro nfin nref h
        unfold WasmRoadNetwork.getRoadSegment
        rw [h]
      rw [h4A _ _ s3.2, s2.2.2.1 A hAB, s1.2.1]
      cases endA <;> simp
    · cases endA <;> simp
  · -- segment B back-reference
    refine ⟨if endB then { segB with endIntersection := some net.nextIntersectionId }
            else { segB with startIntersection := some net.nextIntersectionId }, ?_, ?_⟩
    · rw [hsnd]
      have h4B : ∀ (nfin : WasmRoadNetwork) (nref : WasmRoadNetwork), nfin.roadSegments
          = nref.roadSegments → nfin.getRoadSegment B = nref.getRoadSegment B := by
        intro nfin nref h
        unfold WasmRoadNetwork.getRoadSegment
        rw [h]
      rw [h4B _ _ s3.2, s2.2.1]
      cases endB <;> simp
    · cases endB <;> simp

/-- Witness for the intersection claim at the concrete two-segment network
with 2 and 3 lanes. -/
theorem C6_witness :
    (c6net.connectWithIntersection 0 true 1 false).1 = c6net.nextIntersectionId ∧
    (∃ inter : WasmIntersection,
      (c6net.connectWithIntersection 0 true 1 false).2.getIntersection c6net.nextIntersectionId
          = some inter ∧
      inter.position = { x := ((if true then ((c6net.getRoadSegment 0).getD { id := 0, startPoint := {}, endPoint := {}, length := 0 }).endPoint else ((c6net.getRoadSegment 0).getD { id := 0, startPoint := {}, endPoint := {}, length := 0 }).startPoint).x
                                + (if false then ((c6net.getRoadSegment 1).getD { id := 0, startPoint := {}, endPoint := {}, length := 0 }).endPoint else ((c6net.getRoadSegment 1).getD { id := 0, startPoint := {}, endPoint := {}, length := 0 }).startPoint).x) / 2,
                         y := ((if true then ((c6net.getRoadSegment 0).getD { id := 0, startPoint := {}, endPoint := {}, length := 0 }).endPoint else ((c6net.getRoadSegment 0).getD { id := 0, startPoint := {}, endPoint := {}, length := 0 }).startPoint).y
                                + (if false then ((c6net.getRoadSegment 1).getD { id := 0, startPoint := {}, endPoint := {}, length := 0 }).endPoint else ((c6net.getRoadSegment 1).getD { id := 0, startPoint := {}, endPoint := {}, length := 0 }).startPoint).y) / 2 } ∧
      inter.connectedRoads = [0, 1] ∧
      connDirCount inter 0 1 = 6 ∧
      connDirCount inter 1 0 = 6) ∧
    (∃ segA2, (c6net.connectWithIntersection 0 true 1 false).2.getRoadSegment 0 = some segA2 ∧
      (if true then segA2.endIntersection else segA2.startIntersection)
        = some c6net.nextIntersectionId) ∧
    (∃ segB2, (c6net.connectWithIntersection 0 true 1 false).2.getRoadSegment 1 = some segB2 ∧
      (if false then segB2.endIntersection else segB2.startIntersection)
        = some c6net.nextIntersectionId) :=
  C6_intersection_cross_product c6net 0 1 true false
    ((c6net.getRoadSegment 0).getD { id := 0, startPoint := {}, endPoint := {}, length := 0 })
    ((c6net.getRoadSegment 1).getD { id := 0, startPoint := {}, endPoint := {}, length := 0 })
    (by with_unfolding_all rfl) (by with_unfolding_all rfl) (by decide)
    (by with_unfolding_all rfl) (by with_unfolding_all rfl)

/-- Writing a transform leaves every collision component unchanged. -/
theorem getCollision_setTransform (w : WasmWorld) (i j : ℕ) (t : WasmTransformComponent) :
    (w.setTransformComp i t).getCollisionComp j = w.getCollisionComp j := rfl

/-- Writing a transform leaves the collision pool unchanged. -/
theorem collisionPool_setTransform (w : WasmWorld) (i : ℕ) (t : WasmTransformComponent) :
    (w.setTransformComp i t).collisionPool = w.collisionPool := rfl

/-- Reading a just-written collision slot gives the written component. -/
theorem setCollision_get_self (w : WasmWorld) (i : ℕ) (c : WasmCollisionComponent)
    (h : i < w.collisionPool.length) :
    (w.setCollisionComp i c).getCollisionComp i = c := by
  unfold WasmWorld.setCollisionComp WasmWorld.getCollisionComp poolGet
  simp only
  rw [listGetD_set_self _ _ _ _ h]
  rfl

/-- Writing one collision slot leaves the others unchanged. -/
theorem setCollision_get_ne (w : WasmWorld) (i j : ℕ) (c : WasmCollisionComponent)
    (h : i ≠ j) :
    (w.setCollisionComp i c).getCollisionComp j = w.getCollisionComp j := by
  unfold WasmWorld.setCollisionComp WasmWorld.getCollisionComp poolGet
  simp only
  rw [listGetD_set_ne _ _ _ _ _ h]

/-- Writing a collision slot keeps the pool length. -/
theorem setCollision_len (w : WasmWorld) (i : ℕ) (c : WasmCollisionComponent) :
    (w.setCollisionComp i c).collisionPool.length = w.collisionPool.length :=
  List.length_set _ _ _

/-- Every pair produced by the double collision loop is ordered and in
range. -/
theorem mem_pairIndices (n i j : ℕ) (h : (i, j) ∈ pairIndices n) : i < j ∧ j < n := by
  unfold pairIndices at h
  simp only [List.mem_flatMap, List.mem_map, List.mem_range] at h
  obtain ⟨i0, hi0, j0, hj0, heq⟩ := h
  cases heq
  rcases List.mem_iff_getElem.1 hj0 with ⟨k, hk, hget⟩
  rw [List.getElem_drop] at hget
  rw [List.getElem_range] at hget
  have hlen := hk
  simp [List.length_drop, List.length_range] at hlen
  omega


theorem foldl_collision_len (g : WasmCollisionComponent → WasmCollisionComponent)
    (l : List ℕ) (w : WasmWorld) :
    (l.foldl (fun wa id => wa.setCollisionComp id (g (wa.getCollisionComp id))) w).collisionPool.length
      = w.collisionPool.length := by
  induction l generalizing w with
  | nil => rfl
  | cons a t ih => rw [List.foldl_cons, ih, setCollision_len]

/-- One collision iteration either leaves the world unchanged or appends
each of the two distinct entities to the colliding-with list of the other
and sets both flags, leaving every other collision component and the pool
length unchanged. -/
theorem collideStep_getCollision (entities : List ℕ) (w : WasmWorld) (ij : ℕ × ℕ)
    (hne : entities.getD ij.1 0 ≠ entities.getD ij.2 0)
    (heaL : entities.getD ij.1 0 < w.collisionPool.length)
    (hebL : entities.getD ij.2 0 < w.collisionPool.length) :
    (collideStep entities w ij).collisionPool.length = w.collisionPool.length ∧
    ((collideStep entities w ij) = w ∨
     ((∀ x, x ≠ entities.getD ij.1 0 → x ≠ entities.getD ij.2 0 →
        (collideStep entities w ij).getCollisionComp x = w.getCollisionComp x) ∧
      (collideStep entities w ij).getCollisionComp (entities.getD ij.1 0)
        = { w.getCollisionComp (entities.getD ij.1 0) with
            colliding := true
            collidingWith := (w.getCollisionComp (entities.getD ij.1 0)).collidingWith
              ++ [entities.getD ij.2 0] } ∧
      (collideStep entities w ij).getCollisionComp (entities.getD ij.2 0)
        = { w.getCollisionComp (entities.getD ij.2 0) with
            colliding := true
            collidingWith := (w.getCollisionComp (entities.getD ij.2 0)).collidingWith
              ++ [entities.getD ij.1 0] })) := by
  unfold collideStep
  dsimp only
  split_ifs with hhit hveh
  · constructor
    · simp only [WasmWorld.setTransformComp, WasmWorld.setCollisionComp]
      simp [List.length_set]
    · refine Or.inr ⟨?_, ?_, ?_⟩
      · intro x hxa hxb
        rw [getCollision_setTransform, getCollision_setTransform, getCollision_setTransform,
          getCollision_setTransform, setCollision_get_ne _ _ _ _ (Ne.symm hxb),
          setCollision_get_ne _ _ _ _ (Ne.symm hxa)]
      · rw [getCollision_setTransform, getCollision_setTransform, getCollision_setTransform,
          getCollision_setTransform, setCollision_get_ne _ _ _ _ (Ne.symm hne),
          setCollision_get_self _ _ _ heaL]
      · rw [getCollision_setTransform, getCollision_setTransform, getCollision_setTransform,
          getCollision_setTransform,
          setCollision_get_self _ _ _ (by rw [setCollision_len]; exact hebL)]
  · constructor
    · simp only [WasmWorld.setTransformComp, WasmWorld.setCollisionComp]
      simp [List.length_set]
    · refine Or.inr ⟨?_, ?_, ?_⟩
      · intro x hxa hxb
        rw [getCollision_setTransform, getCollision_setTransform,
          setCollision_get_ne _ _ _ _ (Ne.symm hxb), setCollision_get_ne _ _ _ _ (Ne.symm hxa)]
      · rw [getCollision_setTransform, getCollision_setTransform,
          setCollision_get_ne _ _ _ _ (Ne.symm hne), setCollision_get_self _ _ _ heaL]
      · rw [getCollision_setTransform, getCollision_setTransform,
          setCollision_get_self _ _ _ (by rw [setCollision_len]; exact hebL)]
  · exact ⟨rfl, Or.inl rfl⟩

/-- One collision iteration preserves the symmetry invariant. -/
theorem collideStep_inv (entities : List ℕ) (w : WasmWorld) (ij : ℕ × ℕ)
    (hnd : entities.Nodup)
    (hWF : ∀ e ∈ entities, e < w.collisionPool.length)
    (hij : ij.1 < ij.2) (hjn : ij.2 < entities.length)
    (hInv : CollInv entities w) :
    CollInv entities (collideStep entities w ij) ∧
    (collideStep entities w ij).collisionPool.length = w.collisionPool.length := by
  have hin : ij.1 < entities.length := lt_trans hij hjn
  have hgea : entities.getD ij.1 0 = entities[ij.1] := List.getD_eq_getElem _ _ hin
  have hgeb : entities.getD ij.2 0 = entities[ij.2] := List.getD_eq_getElem _ _ hjn
  have hea_mem : entities.getD ij.1 0 ∈ entities := by rw [hgea]; exact List.getElem_mem hin
  have heb_mem : entities.getD ij.2 0 ∈ entities := by rw [hgeb]; exact List.getElem_mem hjn
  have hne : entities.getD ij.1 0 ≠ entities.getD ij.2 0 := by
    rw [hgea, hgeb]
    intro h
    exact absurd ((List.Nodup.getElem_inj_iff hnd).1 h) (Nat.ne_of_lt hij)
  obtain ⟨hlen, hcases⟩ := collideStep_getCollision entities w ij hne
    (hWF _ hea_mem) (hWF _ heb_mem)
  refine ⟨?_, hlen⟩
  rcases hcases with heq | ⟨hother, hA, hB⟩
  · rw [heq]; exact hInv
  · constructor
    · intro a ha b hb hab
      by_cases hae : a = entities.getD ij.1 0 <;> by_cases hbe : b = entities.getD ij.2 0
      · subst hae; subst hbe
        rw [hA, hB]
        simp only [List.count_append]
        rw [hInv.1 _ hea_mem _ heb_mem hab]
        simp
      · subst hae
        have hbne2 : b ≠ entities.getD ij.1 0 := fun h => hab h.symm
        rw [hA, hother b hbne2 hbe]
        simp only [List.count_append]
        rw [List.count_eq_zero.2 (show b ∉ [entities.getD ij.2 0] from fun h => hbe (List.mem_singleton.1 h)), Nat.add_zero]
        exact hInv.1 _ hea_mem _ hb hab
      · subst hbe
        by_cases hae2 : a = entities.getD ij.2 0
        · exact absurd hae2 hab
        · rw [hB, hother a hae hae2]
          simp only [List.count_append]
          rw [List.count_eq_zero.2 (show a ∉ [entities.getD ij.1 0] from fun h => hae (List.mem_singleton.1 h)), Nat.add_zero]
          exact hInv.1 _ ha _ heb_mem hab
      · by_cases hae2 : a = entities.getD ij.2 0 <;> by_cases hbe2 : b = entities.getD ij.1 0
        · subst hae2; subst hbe2
          rw [hA, hB]
          simp only [List.count_append]
          rw [hInv.1 _ heb_mem _ hea_mem hab]
          simp
        · subst hae2
          rw [hB, hother b hbe2 hbe]
          simp only [List.count_append]
          rw [List.count_eq_zero.2 (show b ∉ [entities.getD ij.1 0] from fun h => hbe2 (List.mem_singleton.1 h)), Nat.add_zero]
          exact hInv.1 _ heb_mem _ hb hab
        · subst hbe2
          rw [hA, hother a hae hae2]
          simp only [List.count_append]
          rw [List.count_eq_zero.2 (show a ∉ [entities.getD ij.2 0] from fun h => hae2 (List.mem_singleton.1 h)), Nat.add_zero]
          exact hInv.1 _ ha _ hea_mem hab
        · rw [hother a hae hae2, hother b hbe2 hbe]
          exact hInv.1 _ ha _ hb hab
    · intro a ha b hbmem
      have hflag : ∀ x ∈ entities,
          ((w.getCollisionComp x).colliding = true →
            ((collideStep entities w ij).getCollisionComp x).colliding = true) := by
        intro x hx hcol
        by_cases hxa : x = entities.getD ij.1 0
        · subst hxa; rw [hA]
        · by_cases hxb : x = entities.getD ij.2 0
          · subst hxb; rw [hB]
          · rw [hother x hxa hxb]; exact hcol
      by_cases hae : a = entities.getD ij.1 0
      · subst hae
        rw [hA] at hbmem ⊢
        simp only [List.mem_append, List.mem_singleton] at hbmem
        rcases hbmem with hold | rfl
        · obtain ⟨hbent, _, hbcol⟩ := hInv.2 _ hea_mem _ hold
          exact ⟨hbent, rfl, hflag _ hbent hbcol⟩
        · refine ⟨heb_mem, rfl, ?_⟩
          rw [hB]
      · by_cases hae2 : a = entities.getD ij.2 0
        · subst hae2
          rw [hB] at hbmem ⊢
          simp only [List.mem_append, List.mem_singleton] at hbmem
          rcases hbmem with hold | rfl
          · obtain ⟨hbent, _, hbcol⟩ := hInv.2 _ heb_mem _ hold
            exact ⟨hbent, rfl, hflag _ hbent hbcol⟩
          · refine ⟨hea_mem, rfl, ?_⟩
            rw [hA]
        · rw [hother a hae hae2] at hbmem ⊢
          obtain ⟨hbent, hacol, hbcol⟩ := hInv.2 _ ha _ hbmem
          exact ⟨hbent, hacol, hflag _ hbent hbcol⟩

/-- The reset pass body written as a collision-slot write. -/
theorem resetCollision_eq (w : WasmWorld) (id : ℕ) :
    resetCollision w id
      = w.setCollisionComp id { w.getCollisionComp id with colliding := false, collidingWith := [] } := rfl

/-- The reset fold keeps the collision pool length. -/
theorem foldl_reset_len (l : List ℕ) (w : WasmWorld) :
    (l.foldl resetCollision w).collisionPool.length = w.collisionPool.length := by
  induction l generalizing w with
  | nil => rfl
  | cons a t ih =>
    rw [List.foldl_cons, ih]
    exact setCollision_len _ _ _

/-- The reset fold leaves absent ids unchanged. -/
theorem foldl_reset_notmem (l : List ℕ) (w : WasmWorld) (e : ℕ) (he : e ∉ l) :
    ((l.foldl resetCollision w).getCollisionComp e) = w.getCollisionComp e := by
  induction l generalizing w with
  | nil => rfl
  | cons a t ih =>
    rw [List.foldl_cons]
    rw [ih _ (fun h => he (List.mem_cons_of_mem _ h))]
    exact setCollision_get_ne _ _ _ _ (fun h => he (h ▸ List.mem_cons_self _ _))

/-- The reset fold clears the flag and list of each listed id once. -/
theorem foldl_reset_get (l : List ℕ) (hnd : l.Nodup) (w : WasmWorld)
    (hlen : ∀ x ∈ l, x < w.collisionPool.length) (e : ℕ) (he : e ∈ l) :
    ((l.foldl resetCollision w).getCollisionComp e)
      = { w.getCollisionComp e with colliding := false, collidingWith := [] } := by
  induction l generalizing w with
  | nil => cases he
  | cons a t ih =>
    rw [List.foldl_cons]
    rcases List.mem_cons.1 he with rfl | het
    · have hanot : e ∉ t := (List.nodup_cons.1 hnd).1
      rw [foldl_reset_notmem t _ e hanot]
      exact setCollision_get_self _ _ _ (hlen e (List.mem_cons_self _ _))
    · have hne : a ≠ e := fun h => (List.nodup_cons.1 hnd).1 (h ▸ het)
      rw [ih (List.nodup_cons.1 hnd).2 _ ?_ het]
      · rw [resetCollision_eq, setCollision_get_ne _ _ _ _ hne]
      · intro x hx
        rw [resetCollision_eq, setCollision_len]
        exact hlen x (List.mem_cons_of_mem _ hx)

/-- The pair fold of the collision system preserves the symmetry
invariant. -/
theorem pairFold_inv (entities : List ℕ) (hnd : entities.Nodup) (L : List (ℕ × ℕ))
    (hL : ∀ p ∈ L, p.1 < p.2 ∧ p.2 < entities.length) :
    ∀ (w : WasmWorld), (∀ e ∈ entities, e < w.collisionPool.length) → CollInv entities w →
    CollInv entities (L.foldl (collideStep entities) w) := by
  induction L with
  | nil => intro w _ hInv; exact hInv
  | cons p t ih =>
    intro w hWF hInv
    rw [List.foldl_cons]
    obtain ⟨hstepInv, hsteplen⟩ := collideStep_inv entities w p hnd hWF
      (hL p (List.mem_cons_self _ _)).1 (hL p (List.mem_cons_self _ _)).2 hInv
    exact ih (fun q hq => hL q (List.mem_cons_of_mem _ hq))
      _ (fun e he => hsteplen ▸ hWF e he) hstepInv

/-- C8: after a collision-system pass, for every two distinct entities
carrying transform and collision components (with their ids inside the
collision pool), each appears in the colliding-with list of the other
exactly when the converse holds, and any detected pair has both colliding
flags set. -/
theorem C8_collision_symmetry (w : WasmWorld) (dt : ℚ)
    (hWF : ∀ e ∈ w.getEntitiesWith { transform := true, collision := true },
      e < w.collisionPool.length) :
    ∀ i ∈ w.getEntitiesWith { transform := true, collision := true },
    ∀ j ∈ w.getEntitiesWith { transform := true, collision := true }, i ≠ j →
      ((j ∈ ((collisionSystem w dt).getCollisionComp i).collidingWith ↔
        i ∈ ((collisionSystem w dt).getCollisionComp j).collidingWith) ∧
      (j ∈ ((collisionSystem w dt).getCollisionComp i).collidingWith →
        ((collisionSystem w dt).getCollisionComp i).colliding = true ∧
        ((collisionSystem w dt).getCollisionComp j).colliding = true)) := by
  intro i hi j hj hij
  have hnd := getEntitiesWith_nodup w { transform := true, collision := true }
  set entities := w.getEntitiesWith { transform := true, collision := true } with hent
  have hw1 : CollInv entities (entities.foldl resetCollision w) := by
    constructor
    · intro a ha b hb hab
      rw [foldl_reset_get entities hnd w hWF a ha, foldl_reset_get entities hnd w hWF b hb]
      rfl
    · intro a ha b hbmem
      rw [foldl_reset_get entities hnd w hWF a ha] at hbmem
      simp at hbmem
  have hWF1 : ∀ e ∈ entities, e < (entities.foldl resetCollision w).collisionPool.length := by
    intro e he
    rw [foldl_reset_len]
    exact hWF e he
  have hInv := pairFold_inv entities hnd (pairIndices entities.length)
      (fun p hp => mem_pairIndices entities.length p.1 p.2 hp) _ hWF1 hw1
  have hcs : collisionSystem w dt
      = (pairIndices entities.length).foldl (collideStep entities)
          (entities.foldl resetCollision w) := rfl
  rw [hcs]
  have hcount := hInv.1 i hi j hj hij
  refine ⟨⟨?_, ?_⟩, ?_⟩
  · intro hmem
    rw [← List.count_pos_iff] at hmem ⊢
    rw [← hcount]
    exact hmem
  · intro hmem
    rw [← List.count_pos_iff] at hmem ⊢
    rw [hcount]
    exact hmem
  · intro hmem
    obtain ⟨_, h1, h2⟩ := hInv.2 i hi j hmem
    exact ⟨h1, h2⟩

/-- Witness for collision symmetry: two overlapping vehicles at (0, 0) and
(1, 0) with radius 2 each. -/
theorem C8_witness :
    ((1 ∈ ((collisionSystem c8sim.world 1).getCollisionComp 0).collidingWith ↔
      0 ∈ ((collisionSystem c8sim.world 1).getCollisionComp 1).collidingWith) ∧
     (1 ∈ ((collisionSystem c8sim.world 1).getCollisionComp 0).collidingWith →
      ((collisionSystem c8sim.world 1).getCollisionComp 0).colliding = true ∧
      ((collisionSystem c8sim.world 1).getCollisionComp 1).colliding = true)) :=
  C8_collision_symmetry c8sim.world 1 (by with_unfolding_all decide)
    0 (by with_unfolding_all decide) 1 (by with_unfolding_all decide) (by decide)

/-- The popped node belongs to the open set and the remainder is a
sublist of it. -/
theorem popMinFScore_mem : ∀ (l : List AStarNode) (n : AStarNode) (rest : List AStarNode),
    popMinFScore l = some (n, rest) → n ∈ l ∧ ∀ x ∈ rest, x ∈ l := by
  intro l
  induction l with
  | nil => intro n rest h; simp [popMinFScore] at h
  | cons a t ih =>
    intro n rest h
    rw [popMinFScore] at h
    rcases hp : popMinFScore t with _ | ⟨m, r⟩
    · rw [hp] at h
      dsimp only at h
      cases h
      exact ⟨List.mem_cons_self _ _, by intro x hx; cases hx⟩
    · rw [hp] at h
      dsimp only at h
      obtain ⟨hm, hr⟩ := ih m r hp
      split_ifs at h with hf
      · cases h
        exact ⟨List.mem_cons_self _ _, fun x hx => List.mem_cons_of_mem _ hx⟩
      · cases h
        refine ⟨List.mem_cons_of_mem _ hm, ?_⟩
        intro x hx
        rcases List.mem_cons.1 hx with rfl | hx2
        · exact List.mem_cons_self _ _
        · exact List.mem_cons_of_mem _ (hr x hx2)

/-- The one-element route certifies the start segment. -/
theorem routeTailOK_self (net : WasmRoadNetwork) (s : ℕ) :
    RouteTailOK net s s := by
  refine ⟨[s], ⟨rfl, rfl, ?_⟩, ?_⟩
  · exact List.chain'_singleton s
  · intro x hx
    cases hx

/-- Extending a certified route across a shared intersection to a sub-100
resolvable neighbor. -/
theorem routeTailOK_extend (net : WasmRoadNetwork) (s cur nid : ℕ)
    (h : RouteTailOK net s cur) (hconn : segmentsConnected net cur nid)
    (hlt : nid < 100) (hsome : (net.getRoadSegment nid).isSome) :
    RouteTailOK net s nid := by
  obtain ⟨r, ⟨hhead, hlast, hchain⟩, htail⟩ := h
  refine ⟨r ++ [nid], ⟨?_, ?_, ?_⟩, ?_⟩
  · cases r with
    | nil => cases hhead
    | cons a t => exact hhead
  · simp
  · rw [List.chain'_append]
    refine ⟨hchain, List.chain'_singleton nid, ?_⟩
    intro x hx y hy
    rw [hlast] at hx
    cases hx
    rw [List.head?_cons] at hy
    cases hy
    exact hconn
  · intro x hx
    cases r with
    | nil => cases hhead
    | cons a t =>
      rw [List.cons_append, List.tail_cons] at hx
      rcases List.mem_append.1 hx with h1 | h1
      · exact htail x h1
      · rw [List.mem_singleton] at h1
        subst h1
        exact ⟨hlt, hsome⟩

/-- The neighbor-scan body preserves the A-star reachability invariant. -/
theorem processNeighbor_inv (net : WasmRoadNetwork) (endMid : WasmVector2D)
    (currentId : ℕ) (road : WasmRoadSegment) (s : ℕ) (st : AStarState) (neighborId : ℕ)
    (hInv : AStarInv net s st) (hcur : RouteTailOK net s currentId)
    (hroad : net.getRoadSegment currentId = some road) (hlt : neighborId < 100) :
    AStarInv net s (processNeighbor net endMid currentId road st neighborId) := by
  by_cases h1 : neighborId = currentId
  · have heq : processNeighbor net endMid currentId road st neighborId = st := by
      unfold processNeighbor
      rw [if_pos h1]
    rw [heq]
    exact hInv
  rcases hn : net.getRoadSegment neighborId with _ | neighbor
  · have heq : processNeighbor net endMid currentId road st neighborId = st := by
      unfold processNeighbor
      rw [if_neg h1, hn]
    rw [heq]
    exact hInv
  rcases h2 : sharesIntersection road neighbor with _ | _
  · have heq : processNeighbor net endMid currentId road st neighborId = st := by
      unfold processNeighbor
      rw [if_neg h1, hn]
      try dsimp only
      rw [h2]
      rfl
    rw [heq]
    exact hInv
  rcases h3 : st.closedSet.contains neighborId with _ | _
  swap
  · have heq : processNeighbor net endMid currentId road st neighborId = st := by
      unfold processNeighbor
      rw [if_neg h1, hn]
      try dsimp only
      rw [h2, h3]
      rfl
    rw [heq]
    exact hInv
  have hshares : sharesIntersection road neighbor = true := h2
  have hconn : segmentsConnected net currentId neighborId :=
    ⟨road, neighbor, hroad, hn, hshares⟩
  have hsome : (net.getRoadSegment neighborId).isSome = true := by
    rw [hn]; rfl
  have hext := routeTailOK_extend net s currentId neighborId hcur hconn hlt hsome
  have hrid : ((alLookup st.nodeMap neighborId).getD
      { roadId := neighborId, gScore := 0, fScore := 0, parent := none }).roadId = neighborId := by
    rcases hn0 : alLookup st.nodeMap neighborId with _ | p0
    · rfl
    · exact hInv.2 (neighborId, p0) (alLookup_mem _ _ _ hn0)
  rcases hg : alLookup st.gScores neighborId with _ | g
  · have heq : processNeighbor net endMid currentId road st neighborId =
        { st with
            nodeMap := alInsert st.nodeMap neighborId
              { roadId := neighborId,
                gScore := (alLookup st.gScores currentId).getD 0 + road.length,
                fScore := (alLookup st.gScores currentId).getD 0 + road.length
                  + astarHeuristic endMid neighbor,
                parent := some currentId }
            gScores := alInsert st.gScores neighborId
              ((alLookup st.gScores currentId).getD 0 + road.length)
            openSet := st.openSet ++
              [{ roadId := neighborId,
                 gScore := (alLookup st.gScores currentId).getD 0 + road.length,
                 fScore := (alLookup st.gScores currentId).getD 0 + road.length
                   + astarHeuristic endMid neighbor,
                 parent := some currentId }] } := by
      unfold processNeighbor
      rw [if_neg h1, hn]
      try dsimp only
      rw [h2, h3]
      try dsimp only
      rw [hg]
      rfl
    rw [heq]
    constructor
    · intro nd hnd
      rcases List.mem_append.1 hnd with hold | hnew
      · exact hInv.1 nd hold
      · rw [List.mem_singleton] at hnew
        subst hnew
        exact hext
    · intro p hp
      rcases mem_alInsert _ _ _ _ hp with rfl | hold
      · rfl
      · exact hInv.2 p hold
  rcases h4 : decide ((alLookup st.gScores currentId).getD 0 + road.length ≥ g) with _ | _
  · have h4p : ¬((alLookup st.gScores currentId).getD 0 + road.length ≥ g) :=
      of_decide_eq_false h4
    have heq : processNeighbor net endMid currentId road st neighborId =
        { st with
            nodeMap := alInsert st.nodeMap neighborId
              { roadId := ((alLookup st.nodeMap neighborId).getD
                  { roadId := neighborId, gScore := 0, fScore := 0, parent := none }).roadId,
                gScore := (alLookup st.gScores currentId).getD 0 + road.length,
                fScore := (alLookup st.gScores currentId).getD 0 + road.length
                  + astarHeuristic endMid neighbor,
                parent := some currentId }
            gScores := alInsert st.gScores neighborId
              ((alLookup st.gScores currentId).getD 0 + road.length)
            openSet := st.openSet ++
              [{ roadId := ((alLookup st.nodeMap neighborId).getD
                   { roadId := neighborId, gScore := 0, fScore := 0, parent := none }).roadId,
                 gScore := (alLookup st.gScores currentId).getD 0 + road.length,
                 fScore := (alLookup st.gScores currentId).getD 0 + road.length
                   + astarHeuristic endMid neighbor,
                 parent := some currentId }] } := by
      unfold processNeighbor
      rw [if_neg h1, hn]
      try dsimp only
      rw [h2, h3]
      try dsimp only
      rw [hg]
      try dsimp only
      rw [if_neg h4p]
      rfl
    rw [heq]
    constructor
    · intro nd hnd
      rcases List.mem_append.1 hnd with hold | hnew
      · exact hInv.1 nd hold
      · rw [List.mem_singleton] at hnew
        subst hnew
        try dsimp only
        rw [hrid]
        exact hext
    · intro p hp
      rcases mem_alInsert _ _ _ _ hp with rfl | hold
      · exact hrid
      · exact hInv.2 p hold
  · have h4p : (alLookup st.gScores currentId).getD 0 + road.length ≥ g :=
      of_decide_eq_true h4
    have heq : processNeighbor net endMid currentId road st neighborId = st := by
      unfold processNeighbor
      rw [if_neg h1, hn]
      try dsimp only
      rw [h2, h3]
      try dsimp only
      rw [hg]
      try dsimp only
      rw [if_pos h4p]
      rfl
    rw [heq]
    exact hInv

/-- The neighbor fold preserves the A-star reachability invariant. -/
theorem foldNeighbors_inv (net : WasmRoadNetwork) (endMid : WasmVector2D)
    (currentId : ℕ) (road : WasmRoadSegment) (s : ℕ)
    (hroad : net.getRoadSegment currentId = some road) (hcur : RouteTailOK net s currentId) :
    ∀ (l : List ℕ), (∀ x ∈ l, x < 100) → ∀ (st : AStarState), AStarInv net s st →
    AStarInv net s (l.foldl (processNeighbor net endMid currentId road) st) := by
  intro l
  induction l with
  | nil => intro _ st h; exact h
  | cons a t ih =>
    intro hbound st hInv
    rw [List.foldl_cons]
    exact ih (fun x hx => hbound x (List.mem_cons_of_mem _ hx)) _
      (processNeighbor_inv net endMid currentId road s st a hInv hcur hroad
        (hbound a (List.mem_cons_self _ _)))

/-- Soundness of the A-star loop: a successful search certifies a route
from the start to the goal whose tail stays below id 100 and resolves. -/
theorem astarLoop_sound (net : WasmRoadNetwork) (endRoadId : ℕ) (endMid : WasmVector2D)
    (s : ℕ) : ∀ (fuel : ℕ) (st : AStarState), AStarInv net s st →
    ∀ (res : ℕ) (stf : AStarState),
      astarLoop net endRoadId endMid fuel st = (some res, stf) →
      res = endRoadId ∧ RouteTailOK net s endRoadId := by
  intro fuel
  induction fuel with
  | zero =>
    intro st _ res stf h
    rw [astarLoop] at h
    simp at h
  | succ fuel ih =>
    intro st hInv res stf h
    rw [astarLoop] at h
    rcases hpop : popMinFScore st.openSet with _ | ⟨current, rest⟩
    · rw [hpop] at h
      simp at h
    · rw [hpop] at h
      dsimp only at h
      obtain ⟨hcurmem, hrest⟩ := popMinFScore_mem st.openSet current rest hpop
      have hrestInv : AStarInv net s { st with openSet := rest } :=
        ⟨fun nd hnd => hInv.1 nd (hrest nd hnd), hInv.2⟩
      by_cases hclosed : st.closedSet.contains current.roadId
      · rw [if_pos hclosed] at h
        exact ih _ hrestInv res stf h
      · rw [if_neg hclosed] at h
        by_cases hend : current.roadId = endRoadId
        · rw [if_pos hend] at h
          have h1 : some current.roadId = some res := congrArg Prod.fst h
          have h2 : current.roadId = res := Option.some.inj h1
          refine ⟨by rw [← h2, hend], ?_⟩
          have := hInv.1 current hcurmem
          rw [hend] at this
          exact this
        · rw [if_neg hend] at h
          have hst1Inv : AStarInv net s
              { st with openSet := rest, closedSet := current.roadId :: st.closedSet } :=
            ⟨fun nd hnd => hInv.1 nd (hrest nd hnd), hInv.2⟩
          rcases hseg : net.getRoadSegment current.roadId with _ | road
          · rw [hseg] at h
            dsimp only at h
            exact ih _ hst1Inv res stf h
          · rw [hseg] at h
            dsimp only at h
            have hcur : RouteTailOK net s current.roadId := hInv.1 current hcurmem
            have hfold := foldNeighbors_inv net endMid current.roadId road s hseg hcur
              astarNeighborIds (fun x hx => List.mem_range.1 hx) _ hst1Inv
            exact ih _ hfold res stf h

/-- createPath reports failure whenever findPath yields no path. -/
theorem createPath_false_of_empty (st : WasmTrafficSimulation) (v : ℕ) (sx sy ex ey : ℚ)
    (h : st.findPath sx sy ex ey = []) :
    (st.createPath v sx sy ex ey).1 = false := by
  unfold WasmTrafficSimulation.createPath
  by_cases h1 : (st.roadNetwork.isNone || !st.world.entityExists v) = true
  · rw [if_pos h1]
  · rw [if_neg h1]
    dsimp only
    rw [h]
    rfl

/-- The initial A-star state satisfies the reachability invariant. -/
theorem astarInit_inv (net : WasmRoadNetwork) (s : ℕ) (f : ℚ) :
    AStarInv net s { openSet := [{ roadId := s, gScore := 0, fScore := f, parent := none }], gScores := [(s, 0)], closedSet := [], nodeMap := [(s, { roadId := s, gScore := 0, fScore := f, parent := none })] } := by
  constructor
  · intro nd hnd
    rw [List.mem_singleton] at hnd
    subst hnd
    exact routeTailOK_self net s
  · intro p hp
    rw [List.mem_singleton] at hp
    subst hp
    rfl

/-- astarFindPath on distinct resolved segments returns the empty path
whenever no route with a sub-100 resolvable tail exists. -/
theorem astarFindPath_not_tailOK (net : WasmRoadNetwork) (sx sy ex ey : ℚ)
    (hne : net.findNearestRoadSegment sx sy ≠ net.findNearestRoadSegment ex ey)
    (hblock : ¬RouteTailOK net (net.findNearestRoadSegment sx sy)
      (net.findNearestRoadSegment ex ey)) :
    astarFindPath net sx sy ex ey = [] := by
  unfold astarFindPath
  by_cases hval : (net.findNearestRoadSegment sx sy = INVALID_ID ∨
      net.findNearestRoadSegment ex ey = INVALID_ID)
  · rw [if_pos hval]
  · rw [if_neg hval, if_neg hne]
    rcases hs : net.getRoadSegment (net.findNearestRoadSegment sx sy) with _ | startRoad
    · rfl
    · rcases he : net.getRoadSegment (net.findNearestRoadSegment ex ey) with _ | endRoad
      · rfl
      · dsimp only
        split
        · rename_i endId stf heq
          exfalso
          obtain ⟨_, hOK⟩ := astarLoop_sound net (net.findNearestRoadSegment ex ey)
            (segMidpoint endRoad) (net.findNearestRoadSegment sx sy) 20000 _
            (astarInit_inv net (net.findNearestRoadSegment sx sy)
              (astarHeuristic (segMidpoint endRoad) startRoad)) endId stf heq
          exact hblock hOK
        · rfl

/-- astarFindPath is empty when either endpoint fails to resolve. -/
theorem astarFindPath_invalid (net : WasmRoadNetwork) (sx sy ex ey : ℚ)
    (h : net.findNearestRoadSegment sx sy = INVALID_ID ∨
      net.findNearestRoadSegment ex ey = INVALID_ID) :
    astarFindPath net sx sy ex ey = [] := by
  unfold astarFindPath
  rw [if_pos h]

/-- The facade findPath delegates to the attached network. -/
theorem findPath_eq (st : WasmTrafficSimulation) (net : WasmRoadNetwork) (sx sy ex ey : ℚ)
    (h : st.roadNetwork = some net) :
    st.findPath sx sy ex ey = astarFindPath net sx sy ex ey := by
  unfold WasmTrafficSimulation.findPath
  rw [h]

/-- A network without connected segment pairs has no routes between
distinct segments. -/
theorem noRoute_of_noConn (net : WasmRoadNetwork)
    (hnc : ∀ a b, ¬segmentsConnected net a b) (s e : ℕ) (hse : s ≠ e) :
    ∀ r, ¬IsRouteIn net s e r := by
  rintro r ⟨hhead, hlast, hchain⟩
  cases r with
  | nil => cases hhead
  | cons a t =>
    rw [List.head?_cons] at hhead
    have has : a = s := Option.some.inj hhead
    subst has
    cases t with
    | nil =>
      rw [List.getLast?_singleton] at hlast
      exact hse (Option.some.inj hlast)
    | cons b t2 =>
      rw [List.chain'_cons] at hchain
      exact hnc a b hchain.1

/-- If no sub-100 segment other than z itself connects to z, every chain
from z through sub-100 segments stays at z. -/
theorem reach_fixed (net : WasmRoadNetwork) (z : ℕ)
    (hadj : ∀ b, b < 100 → segmentsConnected net z b → b = z) :
    ∀ r : List ℕ, List.Chain' (segmentsConnected net) r → r.head? = some z →
      (∀ x ∈ r.tail, x < 100) → ∀ x ∈ r, x = z := by
  intro r
  induction r with
  | nil => intro _ _ _ x hx; cases hx
  | cons a t ih =>
    intro hchain hhead htail x hx
    rw [List.head?_cons] at hhead
    have ha : a = z := Option.some.inj hhead
    subst ha
    rcases List.mem_cons.1 hx with rfl | hxt
    · rfl
    · cases t with
      | nil => cases hxt
      | cons b t2 =>
        rw [List.chain'_cons] at hchain
        have hb : b = a := hadj b (htail b (List.mem_cons_self _ _)) hchain.1
        subst hb
        exact ih hchain.2 rfl
          (fun y hy => htail y (List.mem_cons_of_mem _ hy)) x hxt

/-- No two segments of the disconnected witness network are connected. -/
theorem discNet_noConn : ∀ a b, ¬segmentsConnected discNet a b := by
  rintro a b ⟨sa, sb, hsa, hsb, hsh⟩
  rw [WasmRoadNetwork.getRoadSegment] at hsa
  have hmem : (a, sa) ∈ discNet.roadSegments := alLookup_mem _ _ _ hsa
  have hfact : ∀ p ∈ discNet.roadSegments,
      p.2.startIntersection = none ∧ p.2.endIntersection = none := by
    with_unfolding_all decide
  obtain ⟨h1, h2⟩ := hfact (a, sa) hmem
  rw [sharesIntersection, h1, h2] at hsh
  simp at hsh

set_option maxRecDepth 10000 in
/-- In the blocked witness network, the only sub-100 segment connected to
segment 0 is segment 0 itself. -/
theorem c10_adj : ∀ b, b < 100 → segmentsConnected c10net 0 b → b = 0 := by
  rintro b hb ⟨sa, sb, hsa, hsb, hsh⟩
  have hsa0 : c10net.getRoadSegment 0
      = some ((c10net.getRoadSegment 0).getD { id := 0, startPoint := {}, endPoint := {}, length := 0 }) := by
    with_unfolding_all rfl
  rw [hsa0] at hsa
  have hsaeq := Option.some.inj hsa
  rw [WasmRoadNetwork.getRoadSegment] at hsb
  have hmem : (b, sb) ∈ c10net.roadSegments := alLookup_mem _ _ _ hsb
  have hfact : ∀ p ∈ c10net.roadSegments, p.1 < 100 →
      sharesIntersection ((c10net.getRoadSegment 0).getD { id := 0, startPoint := {}, endPoint := {}, length := 0 }) p.2 = true → p.1 = 0 := by
    with_unfolding_all decide
  rw [← hsaeq] at hsh
  exact hfact (b, sb) hmem hb hsh

/-- The blocked witness network does hold a route from 0 to 1, through
segment 100. -/
theorem c10_route : IsRouteIn c10net 0 1 [0, 100, 1] := by
  refine ⟨rfl, rfl, ?_⟩
  rw [List.chain'_cons, List.chain'_cons]
  refine ⟨?_, ?_, List.chain'_singleton 1⟩
  · exact ⟨(c10net.getRoadSegment 0).getD { id := 0, startPoint := {}, endPoint := {}, length := 0 },
      (c10net.getRoadSegment 100).getD { id := 0, startPoint := {}, endPoint := {}, length := 0 },
      by with_unfolding_all rfl, by with_unfolding_all rfl, by with_unfolding_all rfl⟩
  · exact ⟨(c10net.getRoadSegment 100).getD { id := 0, startPoint := {}, endPoint := {}, length := 0 },
      (c10net.getRoadSegment 1).getD { id := 0, startPoint := {}, endPoint := {}, length := 0 },
      by with_unfolding_all rfl, by with_unfolding_all rfl, by with_unfolding_all rfl⟩

/-- Every route from 0 to 1 in the blocked witness network passes through
a segment with id at least 100. -/
theorem c10_blocked : ∀ r, IsRouteIn c10net 0 1 r → ∃ x ∈ r.tail, 100 ≤ x := by
  rintro r ⟨hhead, hlast, hchain⟩
  by_contra hno
  push_neg at hno
  have hall := reach_fixed c10net 0 c10_adj r hchain hhead hno
  have h1r : (1 : ℕ) ∈ r := by
    obtain ⟨hne, heq⟩ := List.mem_getLast?_eq_getLast (Option.mem_def.2 hlast)
    rw [heq]
    exact List.getLast_mem hne
  exact absurd (hall 1 h1r) (by decide)

/-- C4: on the two-segment chain, findPath from a point on segment A to a
point on segment B returns the two segments on lane 0; when either query
point resolves to no segment within the search radius, or the two resolved
segments admit no route, findPath returns the empty sequence and
createPath reports failure. -/
theorem C4_findPath_cases :
    (c4sim.findPath 50 0 150 0 = [(0, 0), (1, 0)]) ∧
    (∀ (st : WasmTrafficSimulation) (net : WasmRoadNetwork) (sx sy ex ey : ℚ) (v : ℕ),
      st.roadNetwork = some net →
      (net.findNearestRoadSegment sx sy = INVALID_ID ∨
        net.findNearestRoadSegment ex ey = INVALID_ID) →
      st.findPath sx sy ex ey = [] ∧ (st.createPath v sx sy ex ey).1 = false) ∧
    (∀ (st : WasmTrafficSimulation) (net : WasmRoadNetwork) (sx sy ex ey : ℚ) (v : ℕ),
      st.roadNetwork = some net →
      net.findNearestRoadSegment sx sy ≠ net.findNearestRoadSegment ex ey →
      (∀ r, ¬IsRouteIn net (net.findNearestRoadSegment sx sy)
        (net.findNearestRoadSegment ex ey) r) →
      st.findPath sx sy ex ey = [] ∧ (st.createPath v sx sy ex ey).1 = false) := by
  refine ⟨?_, ?_, ?_⟩
  · with_unfolding_all rfl
  · intro st net sx sy ex ey v hnet hval
    have hfp : st.findPath sx sy ex ey = [] := by
      rw [findPath_eq st net sx sy ex ey hnet]
      exact astarFindPath_invalid net sx sy ex ey hval
    exact ⟨hfp, createPath_false_of_empty st v sx sy ex ey hfp⟩
  · intro st net sx sy ex ey v hnet hne hnoroute
    have hblock : ¬RouteTailOK net (net.findNearestRoadSegment sx sy)
        (net.findNearestRoadSegment ex ey) := by
      rintro ⟨r, hroute, _⟩
      exact hnoroute r hroute
    have hfp : st.findPath sx sy ex ey = [] := by
      rw [findPath_eq st net sx sy ex ey hnet]
      exact astarFindPath_not_tailOK net sx sy ex ey hne hblock
    exact ⟨hfp, createPath_false_of_empty st v sx sy ex ey hfp⟩

/-- Witness for the failure conjuncts of the pathfinding claim: the
disconnected network with two resolvable but unconnected segments, and a
query far outside the search radius. -/
theorem C4_witness :
    (c4discSim.findPath 50 0 50 40 = [] ∧ (c4discSim.createPath 0 50 0 50 40).1 = false) ∧
    (c4discSim.findPath 1000 1000 2000 2000 = [] ∧
      (c4discSim.createPath 0 1000 1000 2000 2000).1 = false) :=
  ⟨C4_findPath_cases.2.2 c4discSim discNet 50 0 50 40 0 rfl
      (by with_unfolding_all decide)
      (noRoute_of_noConn discNet discNet_noConn _ _ (by with_unfolding_all decide)),
    C4_findPath_cases.2.1 c4discSim discNet 1000 1000 2000 2000 0 rfl
      (Or.inl (by with_unfolding_all decide))⟩

/-- C10: the A-star neighbor scan only ranges over ids below 100, and on
any network whose every route between the two distinct resolved segments
passes through an id of at least 100, findPath returns the empty sequence
although a connected route exists. -/
theorem C10_neighbor_cap :
    (∀ id ∈ astarNeighborIds, id < 100) ∧
    (∀ (net : WasmRoadNetwork) (sx sy ex ey : ℚ),
      net.findNearestRoadSegment sx sy ≠ INVALID_ID →
      net.findNearestRoadSegment ex ey ≠ INVALID_ID →
      net.findNearestRoadSegment sx sy ≠ net.findNearestRoadSegment ex ey →
      (∃ r, IsRouteIn net (net.findNearestRoadSegment sx sy)
        (net.findNearestRoadSegment ex ey) r) →
      (∀ r, IsRouteIn net (net.findNearestRoadSegment sx sy)
        (net.findNearestRoadSegment ex ey) r → ∃ x ∈ r.tail, 100 ≤ x) →
      astarFindPath net sx sy ex ey = []) := by
  refine ⟨fun id hid => List.mem_range.1 hid, ?_⟩
  intro net sx sy ex ey _ _ hne _ hblocked
  refine astarFindPath_not_tailOK net sx sy ex ey hne ?_
  rintro ⟨r, hroute, htail⟩
  obtain ⟨x, hx, h100⟩ := hblocked r hroute
  exact absurd (htail x hx).1 (by omega)

set_option maxRecDepth 100000 in
/-- Witness for the neighbor-cap claim at the blocked network: segments 0
and 1 are joined only through segment 100, and the search comes back
empty. -/
theorem C10_witness :
    astarFindPath c10net 50 0 250 0 = [] ∧ ((0 : ℕ) ∈ astarNeighborIds → (0 : ℕ) < 100) := by
  constructor
  · have h50 : c10net.findNearestRoadSegment 50 0 = 0 := by with_unfolding_all rfl
    have h250 : c10net.findNearestRoadSegment 250 0 = 1 := by with_unfolding_all rfl
    refine C10_neighbor_cap.2 c10net 50 0 250 0 ?_ ?_ ?_ ?_ ?_
    · rw [h50]
      decide
    · rw [h250]
      decide
    · rw [h50, h250]
      decide
    · rw [h50, h250]
      exact ⟨[0, 100, 1], c10_route⟩
    · rw [h50, h250]
      exact c10_blocked
  · exact C10_neighbor_cap.1 0
